import Mathlib

/-!
# Type mapping and value conversion of `cpp_wrapper` (`type_conversion.hpp`)

A shallow embedding of `deps/src/cpp_wrapper/type_conversion.hpp`:

* C++ types are terms of `CppType`; a class template (a member function of it) becomes a
  Lean function that takes the template argument as a `CppType`.
* The static data members `m_type_pointer` are the mutable state: `Machine` holds one slot
  per native type and one per class template, and every operation is a state-passing
  function `Machine → Except Failure α × Machine` (`Cpp α`). A `throw` keeps the state
  reached so far.
* The embedded runtime (`julia.h`) is not part of the header. The values, the type
  descriptors and the few runtime calls the header makes are modelled in the first
  section, each marked as such.
* The header is compiled by whoever includes it, with or without `NDEBUG`. The functions
  that use `assert` take the build as the parameter `NDEBUG : Bool`.
-/

namespace cpp_wrapper

/-! ## The embedded runtime (`julia.h`) -/

/-- One `char` of a native string or of a runtime byte string. -/
abbrev Byte := Fin 256

/-- Modelled from the spec: a type descriptor of the embedded runtime (`jl_datatype_t`,
declared in `julia.h`). A descriptor has a name, at most one type parameter and a declared
supertype; `any` is the top of the hierarchy. -/
inductive jl_datatype_t where
  | any : jl_datatype_t
  | plain (name : String) (super : jl_datatype_t) : jl_datatype_t
  | apply1 (name : String) (parameter : jl_datatype_t) (super : jl_datatype_t) : jl_datatype_t
  deriving DecidableEq, Repr

/-- Modelled from the spec: a value in the managed heap of the embedded runtime
(`jl_value_t`, declared in `julia.h`): a boxed bits value (integers, `Ptr`), a byte string
with its data array, a type descriptor used as a value, or a composite with fields. A
handle `jl_value_t*` is an `Option jl_value_t`, `none` being `nullptr`. -/
inductive jl_value_t where
  | bits (ty : jl_datatype_t) (data : Nat) : jl_value_t
  | byte_string (data : List Byte) : jl_value_t
  | array_uint8 (data : List Byte) : jl_value_t
  | datatype (dt : jl_datatype_t) : jl_value_t
  | composite (ty : jl_datatype_t) (fields : List jl_value_t) : jl_value_t

/-- Name of a descriptor (`dt->name->name`); the top type is called `Any`. -/
def jl_datatype_t.name : jl_datatype_t → String
  | .any => "Any"
  | .plain n _ => n
  | .apply1 n _ _ => n

/-- Modelled from the spec: `jl_any_type` of `julia.h`. -/
def jl_any_type : jl_datatype_t := .any

/-- Modelled from the spec: `jl_void_type` of `julia.h`, the type `Void`. -/
def jl_void_type : jl_datatype_t := .plain "Void" .any

/-- Modelled from the spec: the abstract type `Real` of the runtime. -/
def jl_real_type : jl_datatype_t := .plain "Real" (.plain "Number" .any)

/-- Modelled from the spec: the abstract type `Signed` of the runtime. -/
def jl_signed_type : jl_datatype_t := .plain "Signed" (.plain "Integer" jl_real_type)

/-- Modelled from the spec: the abstract type `Unsigned` of the runtime. -/
def jl_unsigned_type : jl_datatype_t := .plain "Unsigned" (.plain "Integer" jl_real_type)

/-- Modelled from the spec: `jl_float64_type` of `julia.h`. -/
def jl_float64_type : jl_datatype_t := .plain "Float64" (.plain "AbstractFloat" jl_real_type)

/-- Modelled from the spec: `jl_int32_type` of `julia.h`. -/
def jl_int32_type : jl_datatype_t := .plain "Int32" jl_signed_type

/-- Modelled from the spec: `jl_uint8_type` of `julia.h`. -/
def jl_uint8_type : jl_datatype_t := .plain "UInt8" jl_unsigned_type

/-- Modelled from the spec: `jl_uint32_type` of `julia.h`. -/
def jl_uint32_type : jl_datatype_t := .plain "UInt32" jl_unsigned_type

/-- Modelled from the spec: `jl_uint64_type` of `julia.h`. -/
def jl_uint64_type : jl_datatype_t := .plain "UInt64" jl_unsigned_type

/-- Modelled from the spec: `jl_voidpointer_type` of `julia.h`, the type `Ptr` applied to
`Void`, whose supertype is `Ref` applied to `Void`. -/
def jl_voidpointer_type : jl_datatype_t :=
  .apply1 "Ptr" jl_void_type (.apply1 "Ref" jl_void_type .any)

/-- Modelled from the spec: `jl_datatype_type` of `julia.h`, the type of type descriptors. -/
def jl_datatype_type : jl_datatype_t := .plain "DataType" (.plain "Type" .any)

/-- Modelled from the spec: `jl_ascii_string_type` of `julia.h`. -/
def jl_ascii_string_type : jl_datatype_t :=
  .plain "ASCIIString" (.plain "DirectIndexString" (.plain "AbstractString" .any))

/-- Modelled from the spec: `jl_utf8_string_type` of `julia.h`. -/
def jl_utf8_string_type : jl_datatype_t :=
  .plain "UTF8String" (.plain "AbstractString" .any)

/-- Modelled from the spec: the type of the data array of a byte string, an `Array` of
`UInt8` (the dimension parameter is left out). -/
def jl_array_uint8_type : jl_datatype_t :=
  .apply1 "Array" jl_uint8_type
    (.apply1 "DenseArray" jl_uint8_type (.apply1 "AbstractArray" jl_uint8_type .any))

/-- Modelled from the spec: the binding `ObjectIdDict` of the module `Base`, which
`jl_get_global(jl_base_module, jl_symbol("ObjectIdDict"))` resolves by name. -/
def jl_objectiddict_type : jl_datatype_t :=
  .plain "ObjectIdDict" (.plain "Associative" .any)

/-- Modelled from the spec: `jl_apply_type((jl_value_t*)jl_type_type, jl_svec1(t))`, the
type-of-a-type constructor `Type` applied to the descriptor `t`. -/
def jl_apply_type_type (t : jl_datatype_t) : jl_datatype_t := .apply1 "Type" t .any

/-- Modelled from the spec: `jl_typename_str` of `julia.h`, the name of a descriptor. -/
def jl_typename_str (dt : jl_datatype_t) : String := dt.name

/-- Modelled from the spec: `runtime_type_of` (`jl_typeof` of `julia.h`). A byte string is
an `ASCIIString` when all its bytes are below 128 and a `UTF8String` otherwise. -/
def jl_typeof : jl_value_t → jl_datatype_t
  | .bits ty _ => ty
  | .byte_string data => if data.all (fun b => decide (b.val < 128)) then jl_ascii_string_type
      else jl_utf8_string_type
  | .array_uint8 _ => jl_array_uint8_type
  | .datatype _ => jl_datatype_type
  | .composite ty _ => ty

/-- Modelled from the spec: `is_subtype_or_equal`, the "more specific than" predicate
(`jl_type_morespecific` of `julia.h`): `a` is `b`, or `b` is the top type, or the declared
supertype of `a` is more specific than `b`. -/
def jl_type_morespecific : jl_datatype_t → jl_datatype_t → Bool
  | .any, b => decide (b = .any)
  | .plain n s, b => decide (b = .any) || decide (.plain n s = b) || jl_type_morespecific s b
  | .apply1 n p s, b =>
      decide (b = .any) || decide (.apply1 n p s = b) || jl_type_morespecific s b

/-- Modelled from the spec: `field_at` (`jl_fieldref` of `julia.h`). `none` stands for a
field the value does not have, where the runtime call has no defined result. -/
def jl_fieldref : jl_value_t → Nat → Option jl_value_t
  | .composite _ fields, i => fields.get? i
  | .byte_string data, 0 => some (.array_uint8 data)
  | _, _ => none

/-- Modelled from the spec: `jl_is_pointer` of `julia.h`: the runtime type of the value is
an instance of `Ptr`. -/
def jl_is_pointer (v : jl_value_t) : Bool := decide ((jl_typeof v).name = "Ptr")

/-- Modelled from the spec: the primitive boxing of an opaque pointer
(`jl_box_voidpointer` of `julia.h`). A native address is a `Nat`, `0` being `nullptr`. -/
def jl_box_voidpointer (p : Nat) : jl_value_t := .bits jl_voidpointer_type p

/-- Modelled from the spec: the primitive unboxing of an opaque pointer
(`jl_unbox_voidpointer` of `julia.h`): the data word of a bits value. -/
def jl_unbox_voidpointer : jl_value_t → Option Nat
  | .bits _ data => some data
  | _ => none

/-- Modelled from the spec: `jl_is_byte_string` of `julia.h`: the value is an `ASCIIString`
or a `UTF8String`. -/
def jl_is_byte_string : jl_value_t → Bool
  | .byte_string _ => true
  | _ => false

/-- The bytes a `const char*` designates as a C string: those before the first NUL of the
buffer it points into (what `strlen` measures). -/
def c_string_bytes (buffer : List Byte) : List Byte := buffer.takeWhile (fun b => b ≠ 0)

/-- Modelled from the spec: the primitive boxing of a byte string (`jl_cstr_to_string` of
`julia.h`): a fresh runtime string holding a copy of the C string at `str`. -/
def jl_cstr_to_string (str : List Byte) : jl_value_t := .byte_string (c_string_bytes str)

/-- Modelled from the spec: `jl_bytestring_ptr` of `julia.h`: the buffer of a byte string,
its data followed by the terminating NUL the runtime keeps after every byte array. -/
def jl_bytestring_ptr : jl_value_t → Option (List Byte)
  | .byte_string data => some (data ++ [0])
  | _ => none

/-! ## Native types and the type traits the header uses -/

/-- A C++ type that can instantiate the templates of the header: the types with an explicit
specialisation, any other fundamental type, a class type, `SingletonType<T>`, and the
`const`, pointer and lvalue-reference forms of a type. `jl_value_t` and `jl_datatype_t`
are the runtime structs, so that `jl_value_t*` is `pointer jl_value_t`. -/
inductive CppType where
  | void : CppType
  | double : CppType
  | int : CppType
  | unsigned_int : CppType
  | uint64_t : CppType
  | fundamental (name : String) : CppType
  | std_string : CppType
  | jl_value_t : CppType
  | jl_datatype_t : CppType
  | ObjectIdDict : CppType
  | user (name : String) : CppType
  | SingletonType (T : CppType) : CppType
  | const (T : CppType) : CppType
  | pointer (T : CppType) : CppType
  | lvalue_reference (T : CppType) : CppType
  deriving DecidableEq, Repr

namespace std

/-- The trait `std::remove_reference<T>::type`. -/
def remove_reference : CppType → CppType
  | .lvalue_reference T => T
  | T => T

/-- The trait `std::remove_const<T>::type`: drops a top-level `const`. -/
def remove_const : CppType → CppType
  | .const T => T
  | T => T

/-- The trait `std::remove_pointer<T>::type`: drops one level of (possibly `const`)
pointer. -/
def remove_pointer : CppType → CppType
  | .pointer T => T
  | .const (.pointer T) => T
  | T => T

/-- The trait `std::is_reference<T>::value`. -/
def is_reference : CppType → Bool
  | .lvalue_reference _ => true
  | _ => false

/-- The trait `std::is_pointer<T>::value`; a `const`-qualified pointer is a pointer. -/
def is_pointer : CppType → Bool
  | .pointer _ => true
  | .const (.pointer _) => true
  | _ => false

/-- The trait `std::is_fundamental<T>::value`. -/
def is_fundamental : CppType → Bool
  | .void => true
  | .double => true
  | .int => true
  | .unsigned_int => true
  | .uint64_t => true
  | .fundamental _ => true
  | .const T => is_fundamental T
  | _ => false

end std

/-- Helper to easily remove a ref to a const (line 29). -/
def remove_const_ref (T : CppType) : CppType := std.remove_const (std.remove_reference T)

/-! ## State, failures and the state-passing monad -/

/-- The representation of a native object in native memory. -/
structure CppObject where
  members : List Int
  deriving DecidableEq, Repr

/-- How a call ends when it does not return: a thrown `std::runtime_error` with its
message, a failed `assert` with the text of its expression (the process aborts), a runtime
call made where it has no defined result, or a template instantiation the compiler rejects (the call does not
exist in any program). -/
inductive Failure where
  | runtime_error (what : String) : Failure
  | assertion_failed (expression : String) : Failure
  | undefined_behaviour (call : String) : Failure
  | ill_formed (diagnostic : String) : Failure
  deriving DecidableEq, Repr

/-- The state the header reads and writes. `static_m_type_pointer T` is the static member
`static_type_mapping<T>::m_type_pointer` and `parametric_m_type_pointer C` is
`parametric_type_mapping<C>::m_type_pointer` (a class template is named by a string);
`none` is `nullptr`. `memory` is the native memory a wrapped pointer points into.
`fieldref_log` is a ghost record of the `jl_fieldref` calls made so far, latest first. -/
structure Machine where
  static_m_type_pointer : CppType → Option jl_datatype_t
  parametric_m_type_pointer : String → Option jl_datatype_t
  memory : Nat → CppObject
  fieldref_log : List (jl_value_t × Nat)

/-- The state at process start: every `m_type_pointer` is initialised to `nullptr`
(lines 68 and 102) and no runtime call has been made. -/
def Machine.initial (memory : Nat → CppObject) : Machine :=
  { static_m_type_pointer := fun _ => none
    parametric_m_type_pointer := fun _ => none
    memory := memory
    fieldref_log := [] }

/-- A computation of the header: from a state to a result or a failure, and the state
reached. -/
def Cpp (α : Type) : Type := Machine → Except Failure α × Machine

namespace Cpp

/-- Return a value, leaving the state alone. -/
def ret {α : Type} (a : α) : Cpp α := fun m => (.ok a, m)

/-- Stop with a failure, keeping the state reached so far. -/
def fail {α : Type} (e : Failure) : Cpp α := fun m => (.error e, m)

/-- Sequencing: the second computation runs only when the first one returned. -/
def andThen {α β : Type} (x : Cpp α) (f : α → Cpp β) : Cpp β := fun m =>
  match x m with
  | (.ok a, m1) => f a m1
  | (.error e, m1) => (.error e, m1)

end Cpp

instance : Monad Cpp where
  pure := Cpp.ret
  bind := Cpp.andThen

/-- The statement `throw std::runtime_error(what)`. -/
def throw_runtime_error {α : Type} (what : String) : Cpp α := Cpp.fail (.runtime_error what)

/-- The `assert` macro of `<cassert>`, which the header uses but does not define. In a
translation unit compiled with `NDEBUG` defined it expands to nothing and its operand is
not evaluated. Otherwise the operand is evaluated, and a false value ends the call,
reporting the text of the asserted expression. -/
def assert (NDEBUG : Bool) (operand : Cpp Bool) (expression : String) : Cpp Unit :=
  if NDEBUG then Cpp.ret ()
  else Cpp.andThen operand (fun condition =>
    if condition then Cpp.ret () else Cpp.fail (.assertion_failed expression))

/-! ## The type registry: `static_type_mapping` and `parametric_type_mapping` -/

namespace static_type_mapping.primary

variable (typeid_name : CppType → String)

/-- The member `julia_type` of the base template `static_type_mapping<SourceT>`
(lines 41-48). `typeid_name SourceT` is `typeid(SourceT).name()`. -/
def julia_type (SourceT : CppType) : Cpp jl_datatype_t := fun m =>
  match m.static_m_type_pointer SourceT with
  | none => throw_runtime_error ("Type " ++ typeid_name SourceT ++ " has no Julia wrapper") m
  | some dt => Cpp.ret dt m

/-- The member `set_julia_type` of the base template (lines 50-57). -/
def set_julia_type (SourceT : CppType) (dt : Option jl_datatype_t) : Cpp Unit := fun m =>
  match m.static_m_type_pointer SourceT with
  | some _ =>
      throw_runtime_error ("Type " ++ typeid_name SourceT ++ " was already registered") m
  | none =>
      (.ok (), { m with static_m_type_pointer :=
        fun T => if T = SourceT then dt else m.static_m_type_pointer T })

/-- The member `has_julia_type` of the base template (lines 59-62). -/
def has_julia_type (SourceT : CppType) : Cpp Bool := fun m =>
  Cpp.ret (m.static_m_type_pointer SourceT).isSome m

end static_type_mapping.primary

namespace parametric_type_mapping

/-- The member `julia_type` of `parametric_type_mapping<SourceT>` (lines 75-82). -/
def julia_type (SourceT : String) : Cpp jl_datatype_t := fun m =>
  match m.parametric_m_type_pointer SourceT with
  | none => throw_runtime_error "No Julia type for requested template type" m
  | some dt => Cpp.ret dt m

/-- The member `set_julia_type` of `parametric_type_mapping<SourceT>` (lines 84-91). -/
def set_julia_type (SourceT : String) (dt : Option jl_datatype_t) : Cpp Unit := fun m =>
  match m.parametric_m_type_pointer SourceT with
  | some registered =>
      throw_runtime_error
        ("Template type was already registered as " ++ jl_typename_str registered) m
  | none =>
      (.ok (), { m with parametric_m_type_pointer :=
        fun T => if T = SourceT then dt else m.parametric_m_type_pointer T })

/-- The member `has_julia_type` of `parametric_type_mapping<SourceT>` (lines 93-96). -/
def has_julia_type (SourceT : String) : Cpp Bool := fun m =>
  Cpp.ret (m.parametric_m_type_pointer SourceT).isSome m

end parametric_type_mapping

namespace static_type_mapping

variable (typeid_name : CppType → String)

/-- The member typedef `static_type_mapping<SourceT>::type` (`mapped_type<SourceT>`), by
the specialisation the compiler selects for `SourceT`. -/
def type : CppType → CppType
  | .SingletonType _ => .pointer .jl_datatype_t
  | .void => .void
  | .double => .double
  | .int => .int
  | .unsigned_int => .unsigned_int
  | .uint64_t => .uint64_t
  | .std_string => .pointer .jl_value_t
  | .pointer .void => .pointer .jl_value_t
  | .pointer .jl_datatype_t => .pointer .jl_datatype_t
  | .pointer .jl_value_t => .pointer .jl_value_t
  | .ObjectIdDict => .pointer .jl_value_t
  | _ => .pointer .jl_value_t

/-- The call `static_type_mapping<SourceT>::julia_type()`, by the specialisation the
compiler selects for `SourceT` (lines 110-116 and 123-194); every other type instantiates
the base template. -/
def julia_type : CppType → Cpp jl_datatype_t
  | .SingletonType T => do
      let dt ← julia_type T
      pure (jl_apply_type_type dt)
  | .void => pure jl_void_type
  | .double => pure jl_float64_type
  | .int => pure jl_int32_type
  | .unsigned_int => pure jl_uint32_type
  | .uint64_t => pure jl_uint64_type
  | .std_string => pure jl_any_type
  | .pointer .void => pure jl_voidpointer_type
  | .pointer .jl_datatype_t => pure jl_datatype_type
  | .pointer .jl_value_t => pure jl_any_type
  | .ObjectIdDict => pure jl_objectiddict_type
  | SourceT => primary.julia_type typeid_name SourceT

end static_type_mapping

/-! ## Native to embedded: `convert_to_julia` -/

/-- An implicit conversion between arithmetic types, on integer values: the identity
between equal types, reduction modulo two to the width into an integer type, and
nothing else (floating point is left out). -/
def implicit_conversion (source target : CppType) (v : Int) : Option Int :=
  if source = target then some v
  else match target with
    | .int => some ((v + 2 ^ 31) % 2 ^ 32 - 2 ^ 31)
    | .unsigned_int => some (v % 2 ^ 32)
    | .uint64_t => some (v % 2 ^ 64)
    | _ => none

/-- The member function `std::string::c_str`: the buffer holding the characters of the
string followed by a NUL. -/
def std.string.c_str (str : List Byte) : List Byte := str ++ [0]

/-- The constructor `std::string(const char*)`: the characters of the C string. -/
def std.string.from_c_str (buffer : List Byte) : List Byte := c_string_bytes buffer

namespace convert_to_julia

/-- Auto-conversion to the statically mapped target type (lines 197-202): `return cpp_val`
with return type `mapped_type<T>`. -/
def generic (T : CppType) (cpp_val : Int) : Cpp Int :=
  if std.is_fundamental T then
    match implicit_conversion T (static_type_mapping.type T) cpp_val with
    | some julia_val => Cpp.ret julia_val
    | none => Cpp.fail (.ill_formed "no conversion to mapped_type<T>")
  else Cpp.fail (.ill_formed "Unimplemented convert_to_julia")

/-- The specialisation for `std::string` (lines 204-208). -/
def std_string (str : List Byte) : Cpp (Option jl_value_t) :=
  Cpp.ret (some (jl_cstr_to_string (std.string.c_str str)))

/-- The specialisation for `void*` (lines 210-214). -/
def void_pointer (p : Nat) : Cpp (Option jl_value_t) :=
  Cpp.ret (some (jl_box_voidpointer p))

/-- The specialisation for `jl_value_t*` (lines 216-220). -/
def jl_value_pointer (p : Option jl_value_t) : Cpp (Option jl_value_t) :=
  Cpp.ret p

/-- The specialisation for `jl_datatype_t*` (lines 222-226). -/
def jl_datatype_pointer (dt : Option jl_datatype_t) : Cpp (Option jl_datatype_t) :=
  Cpp.ret dt

end convert_to_julia

/-! ## Embedded to native: `convert_to_cpp` -/

/-- What a `convert_to_cpp<CppT>(jl_value_t*)` call returns, by the shape of `CppT`: a
reference to the native object at an address, a pointer, a copy of a native object, a
native string, a runtime handle, or an empty struct. -/
inductive CppValue where
  | reference (address : Nat) : CppValue
  | pointer (address : Nat) : CppValue
  | object (o : CppObject) : CppValue
  | string (str : List Byte) : CppValue
  | jl_value (p : Option jl_value_t) : CppValue
  | empty_struct : CppValue

/-- The runtime call `jl_fieldref(v, i)` as a step of a computation: it is recorded in
`fieldref_log`, and it has no defined result when the value has no such field. -/
def call_jl_fieldref (v : jl_value_t) (i : Nat) : Cpp jl_value_t := fun m =>
  let m1 := { m with fieldref_log := (v, i) :: m.fieldref_log }
  match jl_fieldref v i with
  | some field => (.ok field, m1)
  | none => (.error (.undefined_behaviour "jl_fieldref"), m1)

/-- The runtime call `jl_unbox_voidpointer(v)` as a step of a computation. -/
def call_jl_unbox_voidpointer (v : jl_value_t) : Cpp Nat :=
  match jl_unbox_voidpointer v with
  | some p => Cpp.ret p
  | none => Cpp.fail (.undefined_behaviour "jl_unbox_voidpointer")

namespace convert_to_cpp

/-- The two-parameter template `convert_to_cpp<CppT, JuliaT>` (lines 228-233):
`return julia_val` with return type `CppT`. -/
def generic (CppT JuliaT : CppType) (julia_val : Int) : Cpp Int :=
  if std.is_fundamental CppT then
    match implicit_conversion JuliaT CppT julia_val with
    | some cpp_val => Cpp.ret cpp_val
    | none => Cpp.fail (.ill_formed "no conversion to CppT")
  else Cpp.fail (.ill_formed "Unimplemented convert_to_cpp")

end convert_to_cpp

namespace detail

namespace DoUnpack

/-- Unpack for a reference, `DoUnpack<std::true_type, std::false_type>` (lines 242-253):
the result is the reference `*ptr`, which designates the object at `ptr`. -/
def reference (ptr : Nat) : Cpp Nat :=
  if ptr = 0 then throw_runtime_error "C++ object was deleted" else Cpp.ret ptr

/-- Unpack for a pointer, `DoUnpack<std::false_type, std::true_type>` (lines 256-264). -/
def pointer (ptr : Nat) : Cpp Nat := Cpp.ret ptr

/-- Unpack for a value, `DoUnpack<std::false_type, std::false_type>` (lines 267-278): the
result is a copy of the object at `ptr`. -/
def value (ptr : Nat) : Cpp CppObject := fun m =>
  if ptr = 0 then throw_runtime_error "C++ object was deleted" m else Cpp.ret (m.memory ptr) m

end DoUnpack

/-- The function `julia_type_name` (lines 280-283). -/
def julia_type_name (dt : jl_datatype_t) : String := dt.name

namespace JuliaUnpacker

variable (typeid_name : CppType → String) (NDEBUG : Bool)

/-- The C++ type stripped of all pointer, reference, const (line 290). -/
def stripped_cpp_t (CppT : CppType) : CppType :=
  std.remove_const (std.remove_pointer (remove_const_ref CppT))

/-- Convert the void pointer in the julia structure to a C++ pointer, asserting that the
type is correct (lines 298-307). The null check, the type check together with the
descriptor lookup it contains, and the pointer check are operands of `assert`; the field
read and the unboxing are not. -/
def extract_cpp_pointer (CppT : CppType) (julia_value : Option jl_value_t) : Cpp Nat := do
  assert NDEBUG (pure julia_value.isSome) "julia_value != nullptr"
  assert NDEBUG
    (do
      let dt ← static_type_mapping.julia_type typeid_name (stripped_cpp_t CppT)
      match julia_value with
      | none => Cpp.fail (.undefined_behaviour "jl_typeof")
      | some v => pure (jl_type_morespecific (jl_typeof v) dt))
    "jl_type_morespecific(jl_typeof(julia_value), (jl_value_t*)static_type_mapping<stripped_cpp_t>::julia_type())"
  match julia_value with
  | none => Cpp.fail (.undefined_behaviour "jl_fieldref")
  | some v => do
    let cpp_ref ← call_jl_fieldref v 0
    assert NDEBUG (pure (jl_is_pointer cpp_ref)) "jl_is_pointer(cpp_ref)"
    call_jl_unbox_voidpointer cpp_ref

/-- The call operator of `JuliaUnpacker<CppT>` (lines 292-295): the unpacking strategy is
selected by `std::is_reference<CppT>` and `std::is_pointer<CppT>`. -/
def call (CppT : CppType) (julia_value : Option jl_value_t) : Cpp CppValue := do
  let ptr ← extract_cpp_pointer typeid_name NDEBUG CppT julia_value
  match std.is_reference CppT, std.is_pointer CppT with
  | true, false => do
    let r ← DoUnpack.reference ptr
    pure (.reference r)
  | false, true => do
    let p ← DoUnpack.pointer ptr
    pure (.pointer p)
  | false, false => do
    let o ← DoUnpack.value ptr
    pure (.object o)
  | true, true => Cpp.fail (.ill_formed "DoUnpack<std::true_type, std::true_type>")

end JuliaUnpacker

end detail

namespace convert_to_cpp

/-- The specialisation for `std::string` (lines 318-327). -/
def std_string (julia_string : Option jl_value_t) : Cpp (List Byte) :=
  match julia_string with
  | none => throw_runtime_error "Any type to convert to string is not a string"
  | some v =>
    if !jl_is_byte_string v then
      throw_runtime_error "Any type to convert to string is not a string"
    else
      match jl_bytestring_ptr v with
      | some buffer => Cpp.ret (std.string.from_c_str buffer)
      | none => Cpp.fail (.undefined_behaviour "jl_bytestring_ptr")

/-- The specialisation for `jl_datatype_t*` (lines 329-333), an explicit specialisation of
the two-parameter template. -/
def jl_datatype_pointer (julia_value : Option jl_datatype_t) : Cpp (Option jl_datatype_t) :=
  Cpp.ret julia_value

/-- The template for singleton types (lines 335-339): a fresh `SingletonT()`. -/
def singleton (_julia_value : Option jl_datatype_t) : Cpp CppValue :=
  Cpp.ret .empty_struct

/-- The specialisation for `jl_value_t*` (lines 341-345). -/
def jl_value_pointer (julia_value : Option jl_value_t) : Cpp (Option jl_value_t) :=
  Cpp.ret julia_value

/-- The specialisation for `ObjectIdDict` (lines 347-351). -/
def ObjectIdDict (_julia_value : Option jl_value_t) : Cpp CppValue :=
  Cpp.ret .empty_struct

end convert_to_cpp

/-- The call `convert_to_cpp<CppT>(julia_value)` on a handle `jl_value_t*`: the explicit
specialisations for `std::string`, `jl_value_t*` and `ObjectIdDict`, and for every other
`CppT` the template of lines 312-316, which runs `detail::JuliaUnpacker<CppT>` (it is more
specialised than the two-parameter template of lines 228-233). `NDEBUG` tells whether the
including translation unit is compiled with `NDEBUG` defined. -/
def convert_to_cpp (typeid_name : CppType → String) (NDEBUG : Bool) (CppT : CppType)
    (julia_value : Option jl_value_t) : Cpp CppValue :=
  match CppT with
  | .std_string => do
    let str ← convert_to_cpp.std_string julia_value
    pure (.string str)
  | .pointer .jl_value_t => do
    let p ← convert_to_cpp.jl_value_pointer julia_value
    pure (.jl_value p)
  | .ObjectIdDict => convert_to_cpp.ObjectIdDict julia_value
  | _ => detail.JuliaUnpacker.call typeid_name NDEBUG CppT julia_value

/-! ## Operation sequences and diagnostic texts -/

/-- One call into this layer: a registration attempt, a descriptor lookup, a
`has_julia_type` query, a `convert_to_julia` call or a `convert_to_cpp` call, with its
template arguments and its argument. -/
inductive Operation where
  | static_set_julia_type (SourceT : CppType) (dt : Option jl_datatype_t) : Operation
  | static_primary_julia_type (SourceT : CppType) : Operation
  | static_julia_type (SourceT : CppType) : Operation
  | static_has_julia_type (SourceT : CppType) : Operation
  | parametric_set_julia_type (SourceT : String) (dt : Option jl_datatype_t) : Operation
  | parametric_julia_type (SourceT : String) : Operation
  | parametric_has_julia_type (SourceT : String) : Operation
  | convert_to_julia_generic (T : CppType) (cpp_val : Int) : Operation
  | convert_to_julia_std_string (str : List Byte) : Operation
  | convert_to_julia_void_pointer (p : Nat) : Operation
  | convert_to_julia_jl_value_pointer (p : Option jl_value_t) : Operation
  | convert_to_julia_jl_datatype_pointer (dt : Option jl_datatype_t) : Operation
  | convert_to_cpp_generic (CppT JuliaT : CppType) (julia_val : Int) : Operation
  | convert_to_cpp (CppT : CppType) (julia_value : Option jl_value_t) : Operation
  | convert_to_cpp_jl_datatype_pointer (julia_value : Option jl_datatype_t) : Operation
  | convert_to_cpp_singleton (julia_value : Option jl_datatype_t) : Operation

/-- Whether the call is a registration attempt (`set_julia_type`). -/
def Operation.is_set_julia_type : Operation → Bool
  | .static_set_julia_type _ _ => true
  | .parametric_set_julia_type _ _ => true
  | _ => false

/-- The state after the call, whether it returned or threw, in the build given by
`NDEBUG`. -/
def Operation.run (typeid_name : CppType → String) (NDEBUG : Bool) :
    Operation → Machine → Machine
  | .static_set_julia_type SourceT dt, m =>
      (static_type_mapping.primary.set_julia_type typeid_name SourceT dt m).2
  | .static_primary_julia_type SourceT, m =>
      (static_type_mapping.primary.julia_type typeid_name SourceT m).2
  | .static_julia_type SourceT, m => (static_type_mapping.julia_type typeid_name SourceT m).2
  | .static_has_julia_type SourceT, m => (static_type_mapping.primary.has_julia_type SourceT m).2
  | .parametric_set_julia_type SourceT dt, m =>
      (parametric_type_mapping.set_julia_type SourceT dt m).2
  | .parametric_julia_type SourceT, m => (parametric_type_mapping.julia_type SourceT m).2
  | .parametric_has_julia_type SourceT, m => (parametric_type_mapping.has_julia_type SourceT m).2
  | .convert_to_julia_generic T cpp_val, m => (convert_to_julia.generic T cpp_val m).2
  | .convert_to_julia_std_string str, m => (convert_to_julia.std_string str m).2
  | .convert_to_julia_void_pointer p, m => (convert_to_julia.void_pointer p m).2
  | .convert_to_julia_jl_value_pointer p, m => (convert_to_julia.jl_value_pointer p m).2
  | .convert_to_julia_jl_datatype_pointer dt, m => (convert_to_julia.jl_datatype_pointer dt m).2
  | .convert_to_cpp_generic CppT JuliaT julia_val, m =>
      (convert_to_cpp.generic CppT JuliaT julia_val m).2
  | .convert_to_cpp CppT julia_value, m =>
      (cpp_wrapper.convert_to_cpp typeid_name NDEBUG CppT julia_value m).2
  | .convert_to_cpp_jl_datatype_pointer julia_value, m =>
      (convert_to_cpp.jl_datatype_pointer julia_value m).2
  | .convert_to_cpp_singleton julia_value, m => (convert_to_cpp.singleton julia_value m).2

/-- The state after a finite sequence of calls, made one after the other. -/
def Operation.run_all (typeid_name : CppType → String) (NDEBUG : Bool) (ops : List Operation)
    (m : Machine) : Machine :=
  ops.foldl (fun s op => op.run typeid_name NDEBUG s) m

/-- A computation keeps the registry when, from every state, both tables of
`m_type_pointer` are the same after it as before it. -/
def Cpp.keeps_registry {α : Type} (c : Cpp α) : Prop :=
  ∀ m : Machine, (c m).2.static_m_type_pointer = m.static_m_type_pointer
    ∧ (c m).2.parametric_m_type_pointer = m.parametric_m_type_pointer

/-- The diagnostic text of a failure: the `what()` of the exception, or the text of the
failed assertion. -/
def Failure.text : Failure → String
  | .runtime_error what => what
  | .assertion_failed expression => expression
  | .undefined_behaviour call => call
  | .ill_formed diagnostic => diagnostic

/-- A diagnostic text carries a name when the name occurs in it as a run of consecutive
characters. -/
def carries_name (text name : String) : Bool := decide (name.data <:+: text.data)

/-- The state `m` with the entry of the native type `K` replaced by `x`. -/
def Machine.with_static_entry (m : Machine) (K : CppType) (x : Option jl_datatype_t) : Machine :=
  { m with static_m_type_pointer := fun T => if T = K then x else m.static_m_type_pointer T }

/-! ## Sample data -/

namespace sample

/-- A `typeid(T).name()` for the samples: the name of a class type, `?` otherwise. -/
def typeid_name : CppType → String
  | .user n => n
  | _ => "?"

/-- A native memory holding the object with members `1, 2, 3` at every address. -/
def memory : Nat → CppObject := fun _ => ⟨[1, 2, 3]⟩

/-- A descriptor created for a wrapped class. -/
def Vec3_type : jl_datatype_t := .plain "Vec3" (.plain "CppAny" .any)

/-- Another descriptor. -/
def Other_type : jl_datatype_t := .plain "Other" .any

/-- The state in which only `Vec3` and the class template `Box` are registered, both with
`Vec3_type`. -/
def registered : Machine :=
  { static_m_type_pointer := fun T => if T = .user "Vec3" then some Vec3_type else none
    parametric_m_type_pointer := fun C => if C = "Box" then some Vec3_type else none
    memory := memory
    fieldref_log := [] }

/-- A wrapped composite of type `Vec3_type` whose field 0 is the boxed native pointer
`p`. -/
def wrapped (p : Nat) : jl_value_t := .composite Vec3_type [jl_box_voidpointer p]

end sample

/-! ## Theorems -/

/-- Sequencing in `Cpp` is `Cpp.andThen`. -/
theorem Cpp.bind_eq {α β : Type} (x : Cpp α) (f : α → Cpp β) : (x >>= f) = Cpp.andThen x f := rfl

/-- Returning in `Cpp` is `Cpp.ret`. -/
theorem Cpp.pure_eq {α : Type} (a : α) : (pure a : Cpp α) = Cpp.ret a := rfl

/-- C1: on an entry that already holds a non-null descriptor `d`, `set_julia_type(d2)`
throws for every `d2` (null, `d` itself or another descriptor) the `std::runtime_error`
of the already-registered branch, and the state after the throw is the state before it, so
the entry still holds `d`. This holds for the base template `static_type_mapping` and for
`parametric_type_mapping`. -/
theorem set_julia_type_registered_entry_throws (typeid_name : CppType → String) (m : Machine) :
    (∀ (SourceT : CppType) (d : jl_datatype_t) (d2 : Option jl_datatype_t),
      m.static_m_type_pointer SourceT = some d →
        static_type_mapping.primary.set_julia_type typeid_name SourceT d2 m
            = (.error (.runtime_error ("Type " ++ typeid_name SourceT ++ " was already registered")), m)
          ∧ (static_type_mapping.primary.set_julia_type typeid_name SourceT d2 m).2.static_m_type_pointer
              SourceT = some d)
    ∧ (∀ (SourceT : String) (d : jl_datatype_t) (d2 : Option jl_datatype_t),
      m.parametric_m_type_pointer SourceT = some d →
        parametric_type_mapping.set_julia_type SourceT d2 m
            = (.error (.runtime_error
                ("Template type was already registered as " ++ jl_typename_str d)), m)
          ∧ (parametric_type_mapping.set_julia_type SourceT d2 m).2.parametric_m_type_pointer
              SourceT = some d) := by
  refine ⟨?_, ?_⟩
  · intro SourceT d d2 h
    have e : static_type_mapping.primary.set_julia_type typeid_name SourceT d2 m
        = (.error (.runtime_error ("Type " ++ typeid_name SourceT ++ " was already registered")), m) := by
      simp [static_type_mapping.primary.set_julia_type, h, throw_runtime_error, Cpp.fail]
    exact ⟨e, by rw [e]; exact h⟩
  · intro SourceT d d2 h
    have e : parametric_type_mapping.set_julia_type SourceT d2 m
        = (.error (.runtime_error
            ("Template type was already registered as " ++ jl_typename_str d)), m) := by
      simp [parametric_type_mapping.set_julia_type, h, throw_runtime_error, Cpp.fail]
    exact ⟨e, by rw [e]; exact h⟩

/-- The registered sample state: registering `Vec3` or the template `Box` again throws and
keeps the entry. -/
theorem set_julia_type_registered_entry_throws_witness :
    (static_type_mapping.primary.set_julia_type sample.typeid_name (.user "Vec3")
        (some sample.Vec3_type) sample.registered
      = (.error (.runtime_error "Type Vec3 was already registered"), sample.registered)
      ∧ (static_type_mapping.primary.set_julia_type sample.typeid_name (.user "Vec3")
          (some sample.Vec3_type) sample.registered).2.static_m_type_pointer (.user "Vec3")
          = some sample.Vec3_type)
    ∧ (parametric_type_mapping.set_julia_type "Box" (some sample.Other_type) sample.registered
      = (.error (.runtime_error "Template type was already registered as Vec3"),
          sample.registered)
      ∧ (parametric_type_mapping.set_julia_type "Box" (some sample.Other_type)
          sample.registered).2.parametric_m_type_pointer "Box" = some sample.Vec3_type) :=
  ⟨(set_julia_type_registered_entry_throws sample.typeid_name sample.registered).1
      (.user "Vec3") sample.Vec3_type (some sample.Vec3_type) (by decide),
   (set_julia_type_registered_entry_throws sample.typeid_name sample.registered).2
      "Box" sample.Vec3_type (some sample.Other_type) (by decide)⟩

/-- C2: for every entry of either registry and every state, `julia_type()` throws the
not-registered `std::runtime_error` exactly when `has_julia_type()` returns false, which
is exactly when the entry is `nullptr`; when the entry holds `d` it returns `d`, and after
a successful `set_julia_type(d)` with non-null `d` it returns that `d`.
`has_julia_type()` always returns, and neither call changes the state. At process start
every lookup throws and every `has_julia_type()` returns false. -/
theorem julia_type_throws_iff_not_registered (typeid_name : CppType → String) (m : Machine) :
    (∀ SourceT : CppType,
      ((static_type_mapping.primary.julia_type typeid_name SourceT m).1
          = .error (.runtime_error ("Type " ++ typeid_name SourceT ++ " has no Julia wrapper"))
        ↔ (static_type_mapping.primary.has_julia_type SourceT m).1 = .ok false)
      ∧ ((static_type_mapping.primary.has_julia_type SourceT m).1 = .ok false
        ↔ m.static_m_type_pointer SourceT = none)
      ∧ (∀ d, m.static_m_type_pointer SourceT = some d →
          (static_type_mapping.primary.julia_type typeid_name SourceT m).1 = .ok d
          ∧ (static_type_mapping.primary.has_julia_type SourceT m).1 = .ok true)
      ∧ (∀ d, (static_type_mapping.primary.set_julia_type typeid_name SourceT (some d) m).1
            = .ok () →
          (static_type_mapping.primary.julia_type typeid_name SourceT
            (static_type_mapping.primary.set_julia_type typeid_name SourceT (some d) m).2).1
            = .ok d)
      ∧ (∃ b, (static_type_mapping.primary.has_julia_type SourceT m).1 = .ok b)
      ∧ (static_type_mapping.primary.julia_type typeid_name SourceT m).2 = m
      ∧ (static_type_mapping.primary.has_julia_type SourceT m).2 = m
      ∧ (static_type_mapping.primary.julia_type typeid_name SourceT (Machine.initial m.memory)).1
          = .error (.runtime_error ("Type " ++ typeid_name SourceT ++ " has no Julia wrapper"))
      ∧ (static_type_mapping.primary.has_julia_type SourceT (Machine.initial m.memory)).1
          = .ok false)
    ∧ (∀ SourceT : String,
      ((parametric_type_mapping.julia_type SourceT m).1
          = .error (.runtime_error "No Julia type for requested template type")
        ↔ (parametric_type_mapping.has_julia_type SourceT m).1 = .ok false)
      ∧ ((parametric_type_mapping.has_julia_type SourceT m).1 = .ok false
        ↔ m.parametric_m_type_pointer SourceT = none)
      ∧ (∀ d, m.parametric_m_type_pointer SourceT = some d →
          (parametric_type_mapping.julia_type SourceT m).1 = .ok d
          ∧ (parametric_type_mapping.has_julia_type SourceT m).1 = .ok true)
      ∧ (∀ d, (parametric_type_mapping.set_julia_type SourceT (some d) m).1 = .ok () →
          (parametric_type_mapping.julia_type SourceT
            (parametric_type_mapping.set_julia_type SourceT (some d) m).2).1 = .ok d)
      ∧ (∃ b, (parametric_type_mapping.has_julia_type SourceT m).1 = .ok b)
      ∧ (parametric_type_mapping.julia_type SourceT m).2 = m
      ∧ (parametric_type_mapping.has_julia_type SourceT m).2 = m
      ∧ (parametric_type_mapping.julia_type SourceT (Machine.initial m.memory)).1
          = .error (.runtime_error "No Julia type for requested template type")
      ∧ (parametric_type_mapping.has_julia_type SourceT (Machine.initial m.memory)).1
          = .ok false) := by
  refine ⟨?_, ?_⟩
  · intro SourceT
    cases h : m.static_m_type_pointer SourceT <;>
      simp [static_type_mapping.primary.julia_type, static_type_mapping.primary.has_julia_type,
        static_type_mapping.primary.set_julia_type, throw_runtime_error, Cpp.fail, Cpp.ret, h,
        Machine.initial]
  · intro SourceT
    cases h : m.parametric_m_type_pointer SourceT <;>
      simp [parametric_type_mapping.julia_type, parametric_type_mapping.has_julia_type,
        parametric_type_mapping.set_julia_type, throw_runtime_error, Cpp.fail, Cpp.ret, h,
        Machine.initial]

/-- Lookups in the registered sample state and after a first registration at process
start. -/
theorem julia_type_throws_iff_not_registered_witness :
    ((static_type_mapping.primary.julia_type sample.typeid_name (.user "Vec3")
        sample.registered).1 = .ok sample.Vec3_type
      ∧ (static_type_mapping.primary.has_julia_type (.user "Vec3") sample.registered).1
          = .ok true)
    ∧ (static_type_mapping.primary.julia_type sample.typeid_name (.user "Vec3")
        (static_type_mapping.primary.set_julia_type sample.typeid_name (.user "Vec3")
          (some sample.Other_type) (Machine.initial sample.memory)).2).1 = .ok sample.Other_type
    ∧ ((parametric_type_mapping.julia_type "Box" sample.registered).1 = .ok sample.Vec3_type
      ∧ (parametric_type_mapping.has_julia_type "Box" sample.registered).1 = .ok true)
    ∧ (parametric_type_mapping.julia_type "Box"
        (parametric_type_mapping.set_julia_type "Box" (some sample.Other_type)
          (Machine.initial sample.memory)).2).1 = .ok sample.Other_type :=
  ⟨((julia_type_throws_iff_not_registered sample.typeid_name sample.registered).1
      (.user "Vec3")).2.2.1 sample.Vec3_type (by decide),
   ((julia_type_throws_iff_not_registered sample.typeid_name
      (Machine.initial sample.memory)).1 (.user "Vec3")).2.2.2.1 sample.Other_type rfl,
   ((julia_type_throws_iff_not_registered sample.typeid_name sample.registered).2
      "Box").2.2.1 sample.Vec3_type (by decide),
   ((julia_type_throws_iff_not_registered sample.typeid_name
      (Machine.initial sample.memory)).2 "Box").2.2.2.1 sample.Other_type rfl⟩

/-- A requested type whose stripped type is a class type is none of the explicit
specialisations of `convert_to_cpp`, so the call runs `JuliaUnpacker`. -/
theorem convert_to_cpp_user_stripped (typeid_name : CppType → String) (NDEBUG : Bool)
    (CppT : CppType) (name : String)
    (h : detail.JuliaUnpacker.stripped_cpp_t CppT = .user name)
    (julia_value : Option jl_value_t) :
    convert_to_cpp typeid_name NDEBUG CppT julia_value
      = detail.JuliaUnpacker.call typeid_name NDEBUG CppT julia_value := by
  unfold convert_to_cpp
  split
  · simp [detail.JuliaUnpacker.stripped_cpp_t, remove_const_ref, std.remove_const,
      std.remove_reference, std.remove_pointer] at h
  · simp [detail.JuliaUnpacker.stripped_cpp_t, remove_const_ref, std.remove_const,
      std.remove_reference, std.remove_pointer] at h
  · simp [detail.JuliaUnpacker.stripped_cpp_t, remove_const_ref, std.remove_const,
      std.remove_reference, std.remove_pointer] at h
  · rfl

/-- With the stripped type registered to `D`, `extract_cpp_pointer` on a non-null handle
goes on to read field 0 when the type check passes or is compiled out, and stops at the
type assertion otherwise. -/
theorem extract_cpp_pointer_user (typeid_name : CppType → String) (NDEBUG : Bool)
    (m : Machine) (CppT : CppType) (name : String) (D : jl_datatype_t) (v : jl_value_t)
    (hS : detail.JuliaUnpacker.stripped_cpp_t CppT = .user name)
    (hD : m.static_m_type_pointer (.user name) = some D) :
    detail.JuliaUnpacker.extract_cpp_pointer typeid_name NDEBUG CppT (some v) m
      = if NDEBUG || jl_type_morespecific (jl_typeof v) D then
          (Cpp.andThen (call_jl_fieldref v 0) (fun cpp_ref =>
            Cpp.andThen (assert NDEBUG (Cpp.ret (jl_is_pointer cpp_ref)) "jl_is_pointer(cpp_ref)")
              (fun _ => call_jl_unbox_voidpointer cpp_ref))) m
        else (.error (.assertion_failed
          "jl_type_morespecific(jl_typeof(julia_value), (jl_value_t*)static_type_mapping<stripped_cpp_t>::julia_type())"), m) := by
  simp only [detail.JuliaUnpacker.extract_cpp_pointer, Cpp.bind_eq, Cpp.pure_eq, hS,
    static_type_mapping.julia_type]
  cases NDEBUG <;> by_cases hm : jl_type_morespecific (jl_typeof v) D = true <;>
    simp [Cpp.andThen, assert, Cpp.ret, Cpp.fail, hD, hm,
      static_type_mapping.primary.julia_type]

/-- With the stripped type not registered, `extract_cpp_pointer` on a non-null handle
throws the not-registered error in a build with assertions, and goes on to read field 0
when `NDEBUG` is defined. -/
theorem extract_cpp_pointer_unregistered (typeid_name : CppType → String) (NDEBUG : Bool)
    (m : Machine) (CppT : CppType) (name : String) (v : jl_value_t)
    (hS : detail.JuliaUnpacker.stripped_cpp_t CppT = .user name)
    (hD : m.static_m_type_pointer (.user name) = none) :
    detail.JuliaUnpacker.extract_cpp_pointer typeid_name NDEBUG CppT (some v) m
      = if NDEBUG then
          (Cpp.andThen (call_jl_fieldref v 0) (fun cpp_ref =>
            Cpp.andThen (assert NDEBUG (Cpp.ret (jl_is_pointer cpp_ref)) "jl_is_pointer(cpp_ref)")
              (fun _ => call_jl_unbox_voidpointer cpp_ref))) m
        else (.error (.runtime_error
          ("Type " ++ typeid_name (.user name) ++ " has no Julia wrapper")), m) := by
  simp only [detail.JuliaUnpacker.extract_cpp_pointer, Cpp.bind_eq, Cpp.pure_eq, hS,
    static_type_mapping.julia_type]
  cases NDEBUG <;>
    simp [Cpp.andThen, assert, Cpp.ret, Cpp.fail, hD, static_type_mapping.primary.julia_type,
      throw_runtime_error]

/-- Reading field 0 when it is a boxed pointer with payload `p`: the call is logged and
`p` is returned. -/
theorem fieldref_pointer_steps (NDEBUG : Bool) (m : Machine) (v cpp_ref : jl_value_t) (p : Nat)
    (hf : jl_fieldref v 0 = some cpp_ref) (hp : jl_is_pointer cpp_ref = true)
    (hu : jl_unbox_voidpointer cpp_ref = some p) :
    (Cpp.andThen (call_jl_fieldref v 0) (fun cpp_ref =>
      Cpp.andThen (assert NDEBUG (Cpp.ret (jl_is_pointer cpp_ref)) "jl_is_pointer(cpp_ref)")
        (fun _ => call_jl_unbox_voidpointer cpp_ref))) m
      = (.ok p, { m with fieldref_log := (v, 0) :: m.fieldref_log }) := by
  cases NDEBUG <;>
    simp [Cpp.andThen, call_jl_fieldref, hf, assert, hp, Cpp.ret, call_jl_unbox_voidpointer, hu]

/-- Reading field 0 and unboxing it never throws the deleted-object error. -/
theorem fieldref_steps_ne_deleted (NDEBUG : Bool) (m : Machine) (v : jl_value_t) :
    ∀ e, ((Cpp.andThen (call_jl_fieldref v 0) (fun cpp_ref =>
      Cpp.andThen (assert NDEBUG (Cpp.ret (jl_is_pointer cpp_ref)) "jl_is_pointer(cpp_ref)")
        (fun _ => call_jl_unbox_voidpointer cpp_ref))) m).1 = .error e →
      e ≠ .runtime_error "C++ object was deleted" := by
  intro e
  cases hf : jl_fieldref v 0 with
  | none =>
    simp only [Cpp.andThen, call_jl_fieldref, hf]
    intro h
    cases h
    simp
  | some r =>
    cases hu : jl_unbox_voidpointer r with
    | none =>
      cases NDEBUG <;> by_cases hp : jl_is_pointer r = true <;>
        simp only [Cpp.andThen, call_jl_fieldref, hf, assert, Cpp.ret, Cpp.fail, hp,
          call_jl_unbox_voidpointer, hu] <;>
        intro h <;> (cases h; try simp)
    | some q =>
      cases NDEBUG <;> by_cases hp : jl_is_pointer r = true <;>
        simp only [Cpp.andThen, call_jl_fieldref, hf, assert, Cpp.ret, Cpp.fail, hp,
          call_jl_unbox_voidpointer, hu] <;>
        intro h <;> (cases h; try simp)

/-- The message of the failed descriptor lookup is never the deleted-object message. -/
theorem no_wrapper_message_ne_deleted (x : String) :
    "Type " ++ x ++ " has no Julia wrapper" ≠ "C++ object was deleted" := by
  intro h
  have h2 := congrArg String.data h
  simp [String.data_append] at h2

/-- C3: let `S` be a class type registered with descriptor `D`, and `v` a value whose
runtime type is `D` or a subtype of `D` and whose field 0 is a boxed pointer with payload
`p`. Then, with or without `NDEBUG`, `convert_to_cpp<S&>(v)` and `convert_to_cpp<S>(v)`
throw the `std::runtime_error` saying the C++ object was deleted if and only if `p` is
null; when `p` is not null the reference mode returns the reference designating the object
at `p` and the value mode returns a copy of the object stored at `p`. -/
theorem convert_to_cpp_reference_value_deleted_iff_null (typeid_name : CppType → String)
    (NDEBUG : Bool) (m : Machine) (name : String) (D : jl_datatype_t) (v cpp_ref : jl_value_t)
    (p : Nat)
    (hD : m.static_m_type_pointer (.user name) = some D)
    (hv : jl_type_morespecific (jl_typeof v) D = true)
    (hf : jl_fieldref v 0 = some cpp_ref) (hp : jl_is_pointer cpp_ref = true)
    (hu : jl_unbox_voidpointer cpp_ref = some p) :
    ((convert_to_cpp typeid_name NDEBUG (.lvalue_reference (.user name)) (some v) m).1
        = .error (.runtime_error "C++ object was deleted") ↔ p = 0)
    ∧ ((convert_to_cpp typeid_name NDEBUG (.user name) (some v) m).1
        = .error (.runtime_error "C++ object was deleted") ↔ p = 0)
    ∧ (p ≠ 0 →
        (convert_to_cpp typeid_name NDEBUG (.lvalue_reference (.user name)) (some v) m).1
          = .ok (.reference p)
        ∧ (convert_to_cpp typeid_name NDEBUG (.user name) (some v) m).1
          = .ok (.object (m.memory p))) := by
  have e1 := extract_cpp_pointer_user typeid_name NDEBUG m (.lvalue_reference (.user name))
    name D v rfl hD
  have e2 := extract_cpp_pointer_user typeid_name NDEBUG m (.user name) name D v rfl hD
  rw [hv, Bool.or_true, if_pos rfl, fieldref_pointer_steps NDEBUG m v cpp_ref p hf hp hu]
    at e1 e2
  rw [convert_to_cpp_user_stripped typeid_name NDEBUG (.lvalue_reference (.user name)) name rfl,
    convert_to_cpp_user_stripped typeid_name NDEBUG (.user name) name rfl]
  by_cases h0 : p = 0 <;>
    simp [detail.JuliaUnpacker.call, Cpp.bind_eq, Cpp.pure_eq, Cpp.andThen, e1, e2,
      std.is_reference, std.is_pointer, detail.DoUnpack.reference, detail.DoUnpack.value,
      throw_runtime_error, Cpp.fail, Cpp.ret, h0]

/-- A wrapped `Vec3` with stored pointer `5` in the registered sample state, in a build
with assertions. -/
theorem convert_to_cpp_reference_value_deleted_iff_null_witness :
    ((convert_to_cpp sample.typeid_name false (.lvalue_reference (.user "Vec3"))
        (some (sample.wrapped 5)) sample.registered).1
        = .error (.runtime_error "C++ object was deleted") ↔ 5 = 0)
    ∧ ((convert_to_cpp sample.typeid_name false (.user "Vec3")
        (some (sample.wrapped 5)) sample.registered).1
        = .error (.runtime_error "C++ object was deleted") ↔ 5 = 0)
    ∧ (5 ≠ 0 →
        (convert_to_cpp sample.typeid_name false (.lvalue_reference (.user "Vec3"))
          (some (sample.wrapped 5)) sample.registered).1 = .ok (.reference 5)
        ∧ (convert_to_cpp sample.typeid_name false (.user "Vec3")
          (some (sample.wrapped 5)) sample.registered).1
          = .ok (.object (sample.registered.memory 5))) :=
  convert_to_cpp_reference_value_deleted_iff_null sample.typeid_name false sample.registered
    "Vec3" sample.Vec3_type (sample.wrapped 5) (jl_box_voidpointer 5) 5 (by decide) (by decide)
    rfl (by decide) rfl

/-- C4: let `S` be a class type registered with descriptor `D`, and `v` a value whose
runtime type is `D` or a subtype of `D` and whose field 0 is a boxed pointer with payload
`p`. Then, with or without `NDEBUG`, `convert_to_cpp<S*>(v)` returns exactly `p`, null or
not. Moreover, on any handle, in any state and in either build, `convert_to_cpp<S*>`
never throws the `std::runtime_error` saying the C++ object was deleted. -/
theorem convert_to_cpp_pointer_returns_stored_pointer (typeid_name : CppType → String)
    (NDEBUG : Bool) (m : Machine) (name : String) (D : jl_datatype_t) (v cpp_ref : jl_value_t)
    (p : Nat)
    (hD : m.static_m_type_pointer (.user name) = some D)
    (hv : jl_type_morespecific (jl_typeof v) D = true)
    (hf : jl_fieldref v 0 = some cpp_ref) (hp : jl_is_pointer cpp_ref = true)
    (hu : jl_unbox_voidpointer cpp_ref = some p) :
    (convert_to_cpp typeid_name NDEBUG (.pointer (.user name)) (some v) m).1
      = .ok (.pointer p)
    ∧ ∀ (build : Bool) (m2 : Machine) (w : Option jl_value_t),
        (convert_to_cpp typeid_name build (.pointer (.user name)) w m2).1
          ≠ .error (.runtime_error "C++ object was deleted") := by
  refine ⟨?_, ?_⟩
  · have e1 := extract_cpp_pointer_user typeid_name NDEBUG m (.pointer (.user name)) name D v
      rfl hD
    rw [hv, Bool.or_true, if_pos rfl, fieldref_pointer_steps NDEBUG m v cpp_ref p hf hp hu]
      at e1
    rw [convert_to_cpp_user_stripped typeid_name NDEBUG (.pointer (.user name)) name rfl]
    simp [detail.JuliaUnpacker.call, Cpp.bind_eq, Cpp.pure_eq, Cpp.andThen, e1,
      std.is_reference, std.is_pointer, detail.DoUnpack.pointer, Cpp.ret]
  · intro build m2 w
    rw [convert_to_cpp_user_stripped typeid_name build (.pointer (.user name)) name rfl]
    have key : ∀ e, (detail.JuliaUnpacker.extract_cpp_pointer typeid_name build
        (.pointer (.user name)) w m2).1 = .error e →
        e ≠ .runtime_error "C++ object was deleted" := by
      intro e
      cases w with
      | none =>
        cases build <;>
          simp only [detail.JuliaUnpacker.extract_cpp_pointer, Cpp.bind_eq, Cpp.pure_eq,
            Cpp.andThen, assert, Cpp.ret, Cpp.fail, Option.isSome] <;>
          intro h <;> cases h <;> simp
      | some w =>
        cases hreg : m2.static_m_type_pointer (.user name) with
        | none =>
          rw [extract_cpp_pointer_unregistered typeid_name build m2 (.pointer (.user name)) name w
            rfl hreg]
          cases build
          · intro h
            cases h
            have hne := no_wrapper_message_ne_deleted (typeid_name (.user name))
            simpa using hne
          · exact fieldref_steps_ne_deleted true m2 w e
        | some D2 =>
          rw [extract_cpp_pointer_user typeid_name build m2 (.pointer (.user name)) name D2 w rfl
            hreg]
          by_cases hc : (build || jl_type_morespecific (jl_typeof w) D2) = true
          · rw [if_pos hc]
            exact fieldref_steps_ne_deleted build m2 w e
          · rw [if_neg hc]
            intro h
            cases h
            simp
    intro hcontra
    simp only [detail.JuliaUnpacker.call, Cpp.bind_eq, Cpp.pure_eq, Cpp.andThen] at hcontra
    rcases hx : detail.JuliaUnpacker.extract_cpp_pointer typeid_name build
        (.pointer (.user name)) w m2 with ⟨r, s⟩
    rw [hx] at hcontra key
    cases r with
    | error e =>
      simp only at hcontra key
      exact key e rfl (by cases hcontra; rfl)
    | ok q =>
      simp [std.is_reference, std.is_pointer, detail.DoUnpack.pointer, Cpp.ret, Cpp.andThen]
        at hcontra

/-- A wrapped `Vec3` with a null stored pointer: pointer mode returns null. -/
theorem convert_to_cpp_pointer_returns_stored_pointer_witness :
    (convert_to_cpp sample.typeid_name false (.pointer (.user "Vec3"))
        (some (sample.wrapped 0)) sample.registered).1 = .ok (.pointer 0) :=
  (convert_to_cpp_pointer_returns_stored_pointer sample.typeid_name false sample.registered
    "Vec3" sample.Vec3_type (sample.wrapped 0) (jl_box_voidpointer 0) 0 (by decide) (by decide)
    rfl (by decide) rfl).1

/-- C5, as stated, fails: in a build with `NDEBUG` defined the type check is compiled out.
With `Vec3` registered, a composite of the unrelated type `Other` requested as
`const Vec3&` is not rejected: the call reads field 0 (one `jl_fieldref` call is logged)
and returns a reference to the address stored there. -/
theorem convert_to_cpp_type_mismatch_returns_under_ndebug :
    (convert_to_cpp sample.typeid_name true (.lvalue_reference (.const (.user "Vec3")))
        (some (.composite sample.Other_type [jl_box_voidpointer 5])) sample.registered).1
      = .ok (.reference 5)
    ∧ (convert_to_cpp sample.typeid_name true (.lvalue_reference (.const (.user "Vec3")))
        (some (.composite sample.Other_type [jl_box_voidpointer 5]))
        sample.registered).2.fieldref_log.length = 1
    ∧ jl_type_morespecific
        (jl_typeof (.composite sample.Other_type [jl_box_voidpointer 5])) sample.Vec3_type
      = false :=
  ⟨rfl, rfl, by decide⟩

/-- C5, amended: in a build with assertions enabled (`NDEBUG` not defined), let `T` be a
requested type whose stripped type is a class type `S` registered with descriptor `D`,
and `v` a value whose runtime type is neither `D` nor a subtype of `D`. Then
`convert_to_cpp<T>(v)` does not return: it stops at the assertion that validates the
runtime type, in value, reference and pointer mode alike, and the state it stops in is the
state it started from, so no `jl_fieldref` call has been made. -/
theorem convert_to_cpp_type_mismatch_fails_before_fieldref (typeid_name : CppType → String)
    (m : Machine) (T : CppType) (name : String) (D : jl_datatype_t) (v : jl_value_t)
    (hS : detail.JuliaUnpacker.stripped_cpp_t T = .user name)
    (hD : m.static_m_type_pointer (.user name) = some D)
    (hv : jl_type_morespecific (jl_typeof v) D = false) :
    convert_to_cpp typeid_name false T (some v) m
        = (.error (.assertion_failed
            "jl_type_morespecific(jl_typeof(julia_value), (jl_value_t*)static_type_mapping<stripped_cpp_t>::julia_type())"),
          m)
    ∧ (convert_to_cpp typeid_name false T (some v) m).2.fieldref_log = m.fieldref_log := by
  have e1 := extract_cpp_pointer_user typeid_name false m T name D v hS hD
  rw [hv] at e1
  have e : convert_to_cpp typeid_name false T (some v) m
      = (.error (.assertion_failed
          "jl_type_morespecific(jl_typeof(julia_value), (jl_value_t*)static_type_mapping<stripped_cpp_t>::julia_type())"),
        m) := by
    rw [convert_to_cpp_user_stripped typeid_name false T name hS]
    simp [detail.JuliaUnpacker.call, Cpp.bind_eq, Cpp.andThen, e1]
  exact ⟨e, by rw [e]⟩

/-- A composite of an unrelated type requested as `const Vec3&` in a build with
assertions. -/
theorem convert_to_cpp_type_mismatch_fails_before_fieldref_witness :
    convert_to_cpp sample.typeid_name false (.lvalue_reference (.const (.user "Vec3")))
        (some (.composite sample.Other_type [jl_box_voidpointer 5])) sample.registered
      = (.error (.assertion_failed
          "jl_type_morespecific(jl_typeof(julia_value), (jl_value_t*)static_type_mapping<stripped_cpp_t>::julia_type())"),
        sample.registered)
    ∧ (convert_to_cpp sample.typeid_name false (.lvalue_reference (.const (.user "Vec3")))
        (some (.composite sample.Other_type [jl_box_voidpointer 5]))
        sample.registered).2.fieldref_log = sample.registered.fieldref_log :=
  convert_to_cpp_type_mismatch_fails_before_fieldref sample.typeid_name sample.registered
    (.lvalue_reference (.const (.user "Vec3"))) "Vec3" sample.Vec3_type
    (.composite sample.Other_type [jl_box_voidpointer 5]) rfl (by decide) (by decide)

/-- Reading back the buffer of `c_str` as a C string gives the string when it has no NUL
byte. -/
theorem c_string_bytes_c_str (s : List Byte) (h : ∀ b ∈ s, b ≠ 0) :
    c_string_bytes (s ++ [0]) = s := by
  induction s with
  | nil => simp [c_string_bytes]
  | cons a t ih =>
    have ha : a ≠ 0 := h a (List.mem_cons_self a t)
    have ht : ∀ b ∈ t, b ≠ 0 := fun b hb => h b (List.mem_cons_of_mem a hb)
    have ih2 := ih ht
    simp only [c_string_bytes] at ih2 ⊢
    rw [List.cons_append, List.takeWhile_cons, if_pos (by simpa using ha), ih2]

/-- C6, as stated, fails: the native string of the three bytes `a`, NUL, `b` comes back
from `convert_to_cpp<std::string>(convert_to_julia(s))` as the one byte `a`, with or
without `NDEBUG`. -/
theorem string_round_trip_truncates_at_nul :
    ((Cpp.andThen (convert_to_julia.std_string [97, 0, 98])
        (convert_to_cpp sample.typeid_name false .std_string) (Machine.initial sample.memory)).1
      = .ok (.string [97])
    ∧ (Cpp.andThen (convert_to_julia.std_string [97, 0, 98])
        (convert_to_cpp sample.typeid_name false .std_string) (Machine.initial sample.memory)).1
      ≠ .ok (.string [97, 0, 98]))
    ∧ ((Cpp.andThen (convert_to_julia.std_string [97, 0, 98])
        (convert_to_cpp sample.typeid_name true .std_string) (Machine.initial sample.memory)).1
      = .ok (.string [97])
    ∧ (Cpp.andThen (convert_to_julia.std_string [97, 0, 98])
        (convert_to_cpp sample.typeid_name true .std_string) (Machine.initial sample.memory)).1
      ≠ .ok (.string [97, 0, 98])) := by
  have e : ∀ build, (Cpp.andThen (convert_to_julia.std_string [97, 0, 98])
        (convert_to_cpp sample.typeid_name build .std_string) (Machine.initial sample.memory)).1
      = .ok (.string [97]) := by
    intro build
    simp [Cpp.andThen, convert_to_julia.std_string, Cpp.ret, convert_to_cpp, Cpp.bind_eq,
      Cpp.pure_eq, convert_to_cpp.std_string, jl_cstr_to_string, jl_is_byte_string,
      jl_bytestring_ptr, std.string.c_str, std.string.from_c_str, c_string_bytes,
      List.takeWhile_cons]
  refine ⟨⟨e false, ?_⟩, ⟨e true, ?_⟩⟩
  · rw [e false]
    simp
  · rw [e true]
    simp

/-- C6, amended: for every native string `s` that contains no NUL byte, in every state,
with or without `NDEBUG`, `convert_to_cpp<std::string>(convert_to_julia(s))` returns `s`
and leaves the state as it was. -/
theorem string_round_trip_without_nul (typeid_name : CppType → String) (NDEBUG : Bool)
    (m : Machine) (s : List Byte) (h : ∀ b ∈ s, b ≠ 0) :
    Cpp.andThen (convert_to_julia.std_string s)
        (convert_to_cpp typeid_name NDEBUG .std_string) m
      = (.ok (.string s), m) := by
  simp [Cpp.andThen, convert_to_julia.std_string, Cpp.ret, convert_to_cpp, Cpp.bind_eq,
    Cpp.pure_eq, convert_to_cpp.std_string, jl_cstr_to_string, jl_is_byte_string,
    jl_bytestring_ptr, std.string.c_str, std.string.from_c_str, c_string_bytes_c_str s h]

/-- The spec scenario: the string `hello`. -/
theorem string_round_trip_without_nul_witness :
    Cpp.andThen (convert_to_julia.std_string [104, 101, 108, 108, 111])
        (convert_to_cpp sample.typeid_name false .std_string) (Machine.initial sample.memory)
      = (.ok (.string [104, 101, 108, 108, 111]), Machine.initial sample.memory) :=
  string_round_trip_without_nul sample.typeid_name false (Machine.initial sample.memory)
    [104, 101, 108, 108, 111] (by simp)

/-- C7: for every opaque pointer `p` (null included) and in every state,
`convert_to_cpp<void*>(convert_to_julia<void*>(p))` does not return `p`: the boxed pointer
has runtime type `Ptr` of `Void`, and the generic unpacker validates it against the
descriptor of the stripped type `void`, which is `Void`. In a build with assertions the
call stops at that assertion. With `NDEBUG` defined the check is compiled out and the call
reads field 0 of the boxed pointer, which has no fields, a runtime call without a defined
result. -/
theorem void_pointer_round_trip_stops_at_validation (typeid_name : CppType → String)
    (m : Machine) (p : Nat) :
    Cpp.andThen (convert_to_julia.void_pointer p)
        (convert_to_cpp typeid_name false (.pointer .void)) m
      = (.error (.assertion_failed
          "jl_type_morespecific(jl_typeof(julia_value), (jl_value_t*)static_type_mapping<stripped_cpp_t>::julia_type())"),
        m)
    ∧ Cpp.andThen (convert_to_julia.void_pointer p)
        (convert_to_cpp typeid_name true (.pointer .void)) m
      = (.error (.undefined_behaviour "jl_fieldref"),
        { m with fieldref_log := (jl_box_voidpointer p, 0) :: m.fieldref_log }) := by
  have hm : jl_type_morespecific jl_voidpointer_type jl_void_type = false := by decide
  refine ⟨?_, ?_⟩
  · simp [Cpp.andThen, convert_to_julia.void_pointer, Cpp.ret, convert_to_cpp,
      detail.JuliaUnpacker.call, detail.JuliaUnpacker.extract_cpp_pointer, Cpp.bind_eq,
      Cpp.pure_eq, assert, detail.JuliaUnpacker.stripped_cpp_t, remove_const_ref,
      std.remove_const, std.remove_reference, std.remove_pointer,
      static_type_mapping.julia_type, jl_box_voidpointer, jl_typeof, hm, Cpp.fail]
  · simp [Cpp.andThen, convert_to_julia.void_pointer, Cpp.ret, convert_to_cpp,
      detail.JuliaUnpacker.call, detail.JuliaUnpacker.extract_cpp_pointer, Cpp.bind_eq,
      Cpp.pure_eq, assert, call_jl_fieldref, jl_fieldref, jl_box_voidpointer]

/-- C8: for `int`, `unsigned int` and `uint64_t`, every value `v` and every state,
`convert_to_cpp<T>(convert_to_julia<T>(v))` returns `v` itself and leaves the state as it
was: both templates return their argument at the type `T` it already has. -/
theorem integer_round_trip (m : Machine) (v : Int) :
    Cpp.andThen (convert_to_julia.generic .int v)
        (convert_to_cpp.generic .int (static_type_mapping.type .int)) m = (.ok v, m)
    ∧ Cpp.andThen (convert_to_julia.generic .unsigned_int v)
        (convert_to_cpp.generic .unsigned_int (static_type_mapping.type .unsigned_int)) m
        = (.ok v, m)
    ∧ Cpp.andThen (convert_to_julia.generic .uint64_t v)
        (convert_to_cpp.generic .uint64_t (static_type_mapping.type .uint64_t)) m
        = (.ok v, m) := by
  simp [Cpp.andThen, convert_to_julia.generic, convert_to_cpp.generic, std.is_fundamental,
    static_type_mapping.type, implicit_conversion, Cpp.ret]

/-- C9: for every handle `v` (null or not) and every state, with or without `NDEBUG`,
`convert_to_cpp<std::string>(v)` throws the not-a-string `std::runtime_error` if and only if `v` is not a byte string (a
null handle is not one); on a byte string it returns a native string and leaves the state
as it was. In particular a boxed 32-bit integer is rejected. -/
theorem convert_to_cpp_string_throws_iff_not_byte_string (typeid_name : CppType → String)
    (NDEBUG : Bool) (m : Machine) (v : Option jl_value_t) :
    ((convert_to_cpp typeid_name NDEBUG .std_string v m).1
        = .error (.runtime_error "Any type to convert to string is not a string")
      ↔ ¬ ∃ x, v = some x ∧ jl_is_byte_string x = true)
    ∧ ((∃ x, v = some x ∧ jl_is_byte_string x = true) →
        ∃ s, convert_to_cpp typeid_name NDEBUG .std_string v m = (.ok (.string s), m))
    ∧ (convert_to_cpp typeid_name NDEBUG .std_string (some (.bits jl_int32_type 5)) m).1
        = .error (.runtime_error "Any type to convert to string is not a string") := by
  refine ⟨?_, ?_, ?_⟩
  · cases v with
    | none =>
      simp [convert_to_cpp, convert_to_cpp.std_string, Cpp.bind_eq, Cpp.andThen,
        throw_runtime_error, Cpp.fail]
    | some x =>
      cases x <;>
        simp [convert_to_cpp, convert_to_cpp.std_string, Cpp.bind_eq, Cpp.pure_eq, Cpp.andThen,
          throw_runtime_error, Cpp.fail, Cpp.ret, jl_is_byte_string, jl_bytestring_ptr]
  · rintro ⟨x, rfl, hx⟩
    cases x <;> simp [jl_is_byte_string] at hx
    simp [convert_to_cpp, convert_to_cpp.std_string, Cpp.bind_eq, Cpp.pure_eq, Cpp.andThen,
      Cpp.ret, jl_is_byte_string, jl_bytestring_ptr]
  · simp [convert_to_cpp, convert_to_cpp.std_string, Cpp.bind_eq, Cpp.andThen,
      throw_runtime_error, Cpp.fail, jl_is_byte_string]

/-- The byte string `hi` is converted. -/
theorem convert_to_cpp_string_throws_iff_not_byte_string_witness :
    ∃ s, convert_to_cpp sample.typeid_name false .std_string (some (.byte_string [104, 105]))
        sample.registered = (.ok (.string s), sample.registered) :=
  (convert_to_cpp_string_throws_iff_not_byte_string sample.typeid_name false sample.registered
    (some (.byte_string [104, 105]))).2.1 ⟨.byte_string [104, 105], rfl, rfl⟩

/-- C10: two distinct native types `A` and `B` (and likewise two distinct class templates)
whose entries are `nullptr` can both be registered with one and the same descriptor `d`:
both `set_julia_type(d)` calls return, and afterwards `julia_type()` returns `d` for both.
Moreover a `set_julia_type` call on one entry, whether it returns or throws, leaves every
other entry of its own registry and every entry of the other registry as it was. -/
theorem set_julia_type_shared_descriptor_and_frame (typeid_name : CppType → String)
    (m : Machine) :
    (∀ (A B : CppType) (d : jl_datatype_t), A ≠ B →
      m.static_m_type_pointer A = none → m.static_m_type_pointer B = none →
        (static_type_mapping.primary.set_julia_type typeid_name A (some d) m).1 = .ok ()
        ∧ (static_type_mapping.primary.set_julia_type typeid_name B (some d)
            (static_type_mapping.primary.set_julia_type typeid_name A (some d) m).2).1 = .ok ()
        ∧ (static_type_mapping.primary.julia_type typeid_name A
            (static_type_mapping.primary.set_julia_type typeid_name B (some d)
              (static_type_mapping.primary.set_julia_type typeid_name A (some d) m).2).2).1
            = .ok d
        ∧ (static_type_mapping.primary.julia_type typeid_name B
            (static_type_mapping.primary.set_julia_type typeid_name B (some d)
              (static_type_mapping.primary.set_julia_type typeid_name A (some d) m).2).2).1
            = .ok d)
    ∧ (∀ (A B : String) (d : jl_datatype_t), A ≠ B →
      m.parametric_m_type_pointer A = none → m.parametric_m_type_pointer B = none →
        (parametric_type_mapping.set_julia_type A (some d) m).1 = .ok ()
        ∧ (parametric_type_mapping.set_julia_type B (some d)
            (parametric_type_mapping.set_julia_type A (some d) m).2).1 = .ok ()
        ∧ (parametric_type_mapping.julia_type A
            (parametric_type_mapping.set_julia_type B (some d)
              (parametric_type_mapping.set_julia_type A (some d) m).2).2).1 = .ok d
        ∧ (parametric_type_mapping.julia_type B
            (parametric_type_mapping.set_julia_type B (some d)
              (parametric_type_mapping.set_julia_type A (some d) m).2).2).1 = .ok d)
    ∧ (∀ (SourceT : CppType) (dt : Option jl_datatype_t),
        (∀ T, T ≠ SourceT →
          (static_type_mapping.primary.set_julia_type typeid_name SourceT dt
            m).2.static_m_type_pointer T = m.static_m_type_pointer T)
        ∧ (static_type_mapping.primary.set_julia_type typeid_name SourceT dt
            m).2.parametric_m_type_pointer = m.parametric_m_type_pointer)
    ∧ (∀ (SourceT : String) (dt : Option jl_datatype_t),
        (∀ C, C ≠ SourceT →
          (parametric_type_mapping.set_julia_type SourceT dt m).2.parametric_m_type_pointer C
            = m.parametric_m_type_pointer C)
        ∧ (parametric_type_mapping.set_julia_type SourceT dt m).2.static_m_type_pointer
            = m.static_m_type_pointer) := by
  refine ⟨?_, ?_, ?_, ?_⟩
  · intro A B d hAB hA hB
    have hBA : B ≠ A := fun h => hAB h.symm
    simp [static_type_mapping.primary.set_julia_type, static_type_mapping.primary.julia_type,
      Cpp.ret, hA, hB, hAB, hBA]
  · intro A B d hAB hA hB
    have hBA : B ≠ A := fun h => hAB h.symm
    simp [parametric_type_mapping.set_julia_type, parametric_type_mapping.julia_type,
      Cpp.ret, hA, hB, hAB, hBA]
  · intro SourceT dt
    cases h : m.static_m_type_pointer SourceT <;>
      simp +contextual [static_type_mapping.primary.set_julia_type, throw_runtime_error,
        Cpp.fail, h]
  · intro SourceT dt
    cases h : m.parametric_m_type_pointer SourceT <;>
      simp +contextual [parametric_type_mapping.set_julia_type, throw_runtime_error,
        Cpp.fail, h]

/-- Registering `A` and `B` with one descriptor in the registered sample state, which
leaves the entry of `Vec3` alone. -/
theorem set_julia_type_shared_descriptor_and_frame_witness :
    ((static_type_mapping.primary.set_julia_type sample.typeid_name (.user "A")
        (some sample.Other_type) sample.registered).1 = .ok ()
      ∧ (static_type_mapping.primary.set_julia_type sample.typeid_name (.user "B")
          (some sample.Other_type)
          (static_type_mapping.primary.set_julia_type sample.typeid_name (.user "A")
            (some sample.Other_type) sample.registered).2).1 = .ok ()
      ∧ (static_type_mapping.primary.julia_type sample.typeid_name (.user "A")
          (static_type_mapping.primary.set_julia_type sample.typeid_name (.user "B")
            (some sample.Other_type)
            (static_type_mapping.primary.set_julia_type sample.typeid_name (.user "A")
              (some sample.Other_type) sample.registered).2).2).1 = .ok sample.Other_type
      ∧ (static_type_mapping.primary.julia_type sample.typeid_name (.user "B")
          (static_type_mapping.primary.set_julia_type sample.typeid_name (.user "B")
            (some sample.Other_type)
            (static_type_mapping.primary.set_julia_type sample.typeid_name (.user "A")
              (some sample.Other_type) sample.registered).2).2).1 = .ok sample.Other_type)
    ∧ (static_type_mapping.primary.set_julia_type sample.typeid_name (.user "A")
        (some sample.Other_type) sample.registered).2.static_m_type_pointer (.user "Vec3")
        = some sample.Vec3_type :=
  ⟨(set_julia_type_shared_descriptor_and_frame sample.typeid_name sample.registered).1
      (.user "A") (.user "B") sample.Other_type (by decide) (by decide) (by decide),
   ((set_julia_type_shared_descriptor_and_frame sample.typeid_name sample.registered).2.2.1
      (.user "A") (some sample.Other_type)).1 (.user "Vec3") (by decide)⟩

/-- Returning keeps the registry. -/
theorem Cpp.keeps_registry_ret {α : Type} (a : α) : (Cpp.ret a).keeps_registry :=
  fun _ => ⟨rfl, rfl⟩

/-- Failing keeps the registry. -/
theorem Cpp.keeps_registry_fail {α : Type} (e : Failure) :
    (Cpp.fail e : Cpp α).keeps_registry :=
  fun _ => ⟨rfl, rfl⟩

/-- Sequencing two computations that keep the registry keeps the registry. -/
theorem Cpp.keeps_registry_andThen {α β : Type} (x : Cpp α) (f : α → Cpp β)
    (hx : x.keeps_registry) (hf : ∀ a, (f a).keeps_registry) :
    (Cpp.andThen x f).keeps_registry := by
  intro m
  have h1 := hx m
  unfold Cpp.andThen
  rcases hxm : x m with ⟨r, m1⟩
  rw [hxm] at h1
  cases r with
  | error e => exact h1
  | ok a =>
    have h2 := hf a m1
    exact ⟨h2.1.trans h1.1, h2.2.trans h1.2⟩

/-- An assertion keeps the registry when its operand does. -/
theorem keeps_registry_assert (NDEBUG : Bool) (operand : Cpp Bool) (e : String)
    (h : operand.keeps_registry) : (assert NDEBUG operand e).keeps_registry := by
  unfold assert
  split
  · exact Cpp.keeps_registry_ret _
  · refine Cpp.keeps_registry_andThen _ _ h (fun c => ?_)
    split
    · exact Cpp.keeps_registry_ret _
    · exact Cpp.keeps_registry_fail _

/-- The lookup of the base template keeps the registry. -/
theorem keeps_registry_primary_julia_type (typeid_name : CppType → String) (T : CppType) :
    (static_type_mapping.primary.julia_type typeid_name T).keeps_registry := by
  intro m
  unfold static_type_mapping.primary.julia_type
  cases m.static_m_type_pointer T <;> exact ⟨rfl, rfl⟩

/-- The descriptor lookup keeps the registry, whichever specialisation is selected. -/
theorem keeps_registry_julia_type (typeid_name : CppType → String) (T : CppType) :
    (static_type_mapping.julia_type typeid_name T).keeps_registry := by
  induction T with
  | SingletonType T ih =>
    rw [static_type_mapping.julia_type, Cpp.bind_eq]
    exact Cpp.keeps_registry_andThen _ _ ih (fun a => Cpp.keeps_registry_ret _)
  | pointer T _ =>
    cases T <;>
      first
        | exact Cpp.keeps_registry_ret _
        | exact keeps_registry_primary_julia_type typeid_name _
  | _ =>
    first
      | exact Cpp.keeps_registry_ret _
      | exact keeps_registry_primary_julia_type typeid_name _

/-- The call `jl_fieldref` touches only the ghost log. -/
theorem keeps_registry_call_jl_fieldref (v : jl_value_t) (i : Nat) :
    (call_jl_fieldref v i).keeps_registry := by
  intro m
  unfold call_jl_fieldref
  cases jl_fieldref v i <;> exact ⟨rfl, rfl⟩

/-- The call `jl_unbox_voidpointer` keeps the registry. -/
theorem keeps_registry_call_jl_unbox_voidpointer (v : jl_value_t) :
    (call_jl_unbox_voidpointer v).keeps_registry := by
  unfold call_jl_unbox_voidpointer
  cases jl_unbox_voidpointer v
  · exact Cpp.keeps_registry_fail _
  · exact Cpp.keeps_registry_ret _

/-- The function `extract_cpp_pointer` keeps the registry. -/
theorem keeps_registry_extract_cpp_pointer (typeid_name : CppType → String) (NDEBUG : Bool)
    (CppT : CppType) (julia_value : Option jl_value_t) :
    (detail.JuliaUnpacker.extract_cpp_pointer typeid_name NDEBUG CppT
      julia_value).keeps_registry := by
  unfold detail.JuliaUnpacker.extract_cpp_pointer
  simp only [Cpp.bind_eq, Cpp.pure_eq]
  refine Cpp.keeps_registry_andThen _ _
    (keeps_registry_assert _ _ _ (Cpp.keeps_registry_ret _)) (fun _ => ?_)
  refine Cpp.keeps_registry_andThen _ _ (keeps_registry_assert _ _ _ ?_) (fun _ => ?_)
  · refine Cpp.keeps_registry_andThen _ _ (keeps_registry_julia_type typeid_name _)
      (fun dt => ?_)
    cases julia_value with
    | none => exact Cpp.keeps_registry_fail _
    | some v => exact Cpp.keeps_registry_ret _
  · cases julia_value with
    | none => exact Cpp.keeps_registry_fail _
    | some v =>
      refine Cpp.keeps_registry_andThen _ _ (keeps_registry_call_jl_fieldref _ _) (fun r => ?_)
      exact Cpp.keeps_registry_andThen _ _
        (keeps_registry_assert _ _ _ (Cpp.keeps_registry_ret _))
        (fun _ => keeps_registry_call_jl_unbox_voidpointer _)

/-- The call operator of `JuliaUnpacker` keeps the registry. -/
theorem keeps_registry_JuliaUnpacker_call (typeid_name : CppType → String) (NDEBUG : Bool)
    (CppT : CppType) (julia_value : Option jl_value_t) :
    (detail.JuliaUnpacker.call typeid_name NDEBUG CppT julia_value).keeps_registry := by
  unfold detail.JuliaUnpacker.call
  simp only [Cpp.bind_eq, Cpp.pure_eq]
  refine Cpp.keeps_registry_andThen _ _
    (keeps_registry_extract_cpp_pointer typeid_name NDEBUG CppT julia_value) (fun ptr => ?_)
  split
  · refine Cpp.keeps_registry_andThen _ _ ?_ (fun _ => Cpp.keeps_registry_ret _)
    unfold detail.DoUnpack.reference
    split
    · exact Cpp.keeps_registry_fail _
    · exact Cpp.keeps_registry_ret _
  · exact Cpp.keeps_registry_andThen _ _ (Cpp.keeps_registry_ret _)
      (fun _ => Cpp.keeps_registry_ret _)
  · refine Cpp.keeps_registry_andThen _ _ ?_ (fun _ => Cpp.keeps_registry_ret _)
    intro m
    unfold detail.DoUnpack.value
    split <;> exact ⟨rfl, rfl⟩
  · exact Cpp.keeps_registry_fail _

/-- The specialisation of `convert_to_cpp` for `std::string` keeps the registry. -/
theorem keeps_registry_convert_to_cpp_std_string (julia_string : Option jl_value_t) :
    (convert_to_cpp.std_string julia_string).keeps_registry := by
  unfold convert_to_cpp.std_string
  cases julia_string with
  | none => exact Cpp.keeps_registry_fail _
  | some v =>
    simp only []
    split
    · exact Cpp.keeps_registry_fail _
    · cases jl_bytestring_ptr v
      · exact Cpp.keeps_registry_fail _
      · exact Cpp.keeps_registry_ret _

/-- Every `convert_to_cpp<CppT>(jl_value_t*)` call keeps the registry. -/
theorem keeps_registry_convert_to_cpp (typeid_name : CppType → String) (NDEBUG : Bool)
    (CppT : CppType) (julia_value : Option jl_value_t) :
    (convert_to_cpp typeid_name NDEBUG CppT julia_value).keeps_registry := by
  unfold convert_to_cpp
  split
  · exact Cpp.keeps_registry_andThen _ _ (keeps_registry_convert_to_cpp_std_string _)
      (fun _ => Cpp.keeps_registry_ret _)
  · exact Cpp.keeps_registry_andThen _ _ (Cpp.keeps_registry_ret _)
      (fun _ => Cpp.keeps_registry_ret _)
  · exact Cpp.keeps_registry_ret _
  · exact keeps_registry_JuliaUnpacker_call typeid_name NDEBUG _ _

/-- The generic `convert_to_julia` keeps the registry. -/
theorem keeps_registry_convert_to_julia_generic (T : CppType) (v : Int) :
    (convert_to_julia.generic T v).keeps_registry := by
  unfold convert_to_julia.generic
  split
  · cases implicit_conversion T (static_type_mapping.type T) v
    · exact Cpp.keeps_registry_fail _
    · exact Cpp.keeps_registry_ret _
  · exact Cpp.keeps_registry_fail _

/-- The two-parameter `convert_to_cpp` keeps the registry. -/
theorem keeps_registry_convert_to_cpp_generic (CppT JuliaT : CppType) (v : Int) :
    (convert_to_cpp.generic CppT JuliaT v).keeps_registry := by
  unfold convert_to_cpp.generic
  split
  · cases implicit_conversion JuliaT CppT v
    · exact Cpp.keeps_registry_fail _
    · exact Cpp.keeps_registry_ret _
  · exact Cpp.keeps_registry_fail _

/-- Every call other than `set_julia_type` leaves both tables of the registry as they
were. -/
theorem Operation.run_keeps_registry (typeid_name : CppType → String) (NDEBUG : Bool)
    (op : Operation)
    (h : op.is_set_julia_type = false) (m : Machine) :
    (op.run typeid_name NDEBUG m).static_m_type_pointer = m.static_m_type_pointer
      ∧ (op.run typeid_name NDEBUG m).parametric_m_type_pointer = m.parametric_m_type_pointer := by
  cases op with
  | static_set_julia_type T dt => simp [Operation.is_set_julia_type] at h
  | parametric_set_julia_type T dt => simp [Operation.is_set_julia_type] at h
  | static_primary_julia_type T => exact keeps_registry_primary_julia_type typeid_name T m
  | static_julia_type T => exact keeps_registry_julia_type typeid_name T m
  | static_has_julia_type T => exact ⟨rfl, rfl⟩
  | parametric_julia_type T =>
    simp only [Operation.run, parametric_type_mapping.julia_type]
    cases m.parametric_m_type_pointer T <;> exact ⟨rfl, rfl⟩
  | parametric_has_julia_type T => exact ⟨rfl, rfl⟩
  | convert_to_julia_generic T v => exact keeps_registry_convert_to_julia_generic T v m
  | convert_to_julia_std_string s => exact ⟨rfl, rfl⟩
  | convert_to_julia_void_pointer p => exact ⟨rfl, rfl⟩
  | convert_to_julia_jl_value_pointer p => exact ⟨rfl, rfl⟩
  | convert_to_julia_jl_datatype_pointer dt => exact ⟨rfl, rfl⟩
  | convert_to_cpp_generic A B v => exact keeps_registry_convert_to_cpp_generic A B v m
  | convert_to_cpp T v => exact keeps_registry_convert_to_cpp typeid_name NDEBUG T v m
  | convert_to_cpp_jl_datatype_pointer v => exact ⟨rfl, rfl⟩
  | convert_to_cpp_singleton v => exact ⟨rfl, rfl⟩

/-- No call of this layer changes an entry that holds a descriptor. -/
theorem Operation.run_keeps_registered (typeid_name : CppType → String) (NDEBUG : Bool)
    (op : Operation)
    (m : Machine) :
    (∀ T d, m.static_m_type_pointer T = some d →
        (op.run typeid_name NDEBUG m).static_m_type_pointer T = some d)
    ∧ (∀ C d, m.parametric_m_type_pointer C = some d →
        (op.run typeid_name NDEBUG m).parametric_m_type_pointer C = some d) := by
  by_cases hs : op.is_set_julia_type = false
  · have h := Operation.run_keeps_registry typeid_name NDEBUG op hs m
    rw [h.1, h.2]
    exact ⟨fun _ _ h => h, fun _ _ h => h⟩
  · cases op <;> simp [Operation.is_set_julia_type] at hs
    · rename_i S dt
      refine ⟨fun T d hT => ?_, fun C d hC => ?_⟩
      · simp only [Operation.run, static_type_mapping.primary.set_julia_type]
        cases hS : m.static_m_type_pointer S with
        | some x => exact hT
        | none =>
          have hne : T ≠ S := fun e => by rw [e, hS] at hT; cases hT
          simp [hne, hT]
      · simp only [Operation.run, static_type_mapping.primary.set_julia_type]
        cases hS : m.static_m_type_pointer S <;> exact hC
    · rename_i S dt
      refine ⟨fun T d hT => ?_, fun C d hC => ?_⟩
      · simp only [Operation.run, parametric_type_mapping.set_julia_type]
        cases hS : m.parametric_m_type_pointer S <;> exact hT
      · simp only [Operation.run, parametric_type_mapping.set_julia_type]
        cases hS : m.parametric_m_type_pointer S with
        | some x => exact hC
        | none =>
          have hne : C ≠ S := fun e => by rw [e, hS] at hC; cases hC
          simp [hne, hC]

/-- A sequence of calls keeps every entry that holds a descriptor. -/
theorem Operation.run_all_keeps_registered (typeid_name : CppType → String)
    (NDEBUG : Bool) (ops : List Operation) :
    ∀ m : Machine,
      (∀ T d, m.static_m_type_pointer T = some d →
          (Operation.run_all typeid_name NDEBUG ops m).static_m_type_pointer T = some d)
      ∧ (∀ C d, m.parametric_m_type_pointer C = some d →
          (Operation.run_all typeid_name NDEBUG ops m).parametric_m_type_pointer C = some d) := by
  induction ops with
  | nil => intro m; exact ⟨fun _ _ h => h, fun _ _ h => h⟩
  | cons op rest ih =>
    intro m
    have h1 := Operation.run_keeps_registered typeid_name NDEBUG op m
    have h2 := ih (op.run typeid_name NDEBUG m)
    exact ⟨fun T d h => h2.1 T d (h1.1 T d h), fun C d h => h2.2 C d (h1.2 C d h)⟩

/-- C11: at process start every entry of both registries is `nullptr`. In either build
(with or without `NDEBUG`), for every finite
sequence of calls of this layer (registration attempts, descriptor lookups,
`has_julia_type`, `convert_to_julia`, `convert_to_cpp`), an entry that holds a descriptor
`d` in some state holds `d` in every later state, from any state and in particular along
any run from process start. Every call other than `set_julia_type`, so every box and
unbox, leaves both tables of the registry exactly as they were. -/
theorem registry_entries_are_set_once (typeid_name : CppType → String) (NDEBUG : Bool) :
    (∀ (memory : Nat → CppObject) (T : CppType) (C : String),
      (Machine.initial memory).static_m_type_pointer T = none
      ∧ (Machine.initial memory).parametric_m_type_pointer C = none)
    ∧ (∀ (ops : List Operation) (m : Machine) (T : CppType) (d : jl_datatype_t),
      m.static_m_type_pointer T = some d →
        (Operation.run_all typeid_name NDEBUG ops m).static_m_type_pointer T = some d)
    ∧ (∀ (ops : List Operation) (m : Machine) (C : String) (d : jl_datatype_t),
      m.parametric_m_type_pointer C = some d →
        (Operation.run_all typeid_name NDEBUG ops m).parametric_m_type_pointer C = some d)
    ∧ (∀ (memory : Nat → CppObject) (before later : List Operation) (T : CppType)
        (d : jl_datatype_t),
      (Operation.run_all typeid_name NDEBUG before (Machine.initial memory)).static_m_type_pointer T
          = some d →
        (Operation.run_all typeid_name NDEBUG (before ++ later)
          (Machine.initial memory)).static_m_type_pointer T = some d)
    ∧ (∀ (memory : Nat → CppObject) (before later : List Operation) (C : String)
        (d : jl_datatype_t),
      (Operation.run_all typeid_name NDEBUG before (Machine.initial memory)).parametric_m_type_pointer C
          = some d →
        (Operation.run_all typeid_name NDEBUG (before ++ later)
          (Machine.initial memory)).parametric_m_type_pointer C = some d)
    ∧ (∀ (op : Operation) (m : Machine), op.is_set_julia_type = false →
      (op.run typeid_name NDEBUG m).static_m_type_pointer = m.static_m_type_pointer
      ∧ (op.run typeid_name NDEBUG m).parametric_m_type_pointer = m.parametric_m_type_pointer) := by
  refine ⟨fun _ _ _ => ⟨rfl, rfl⟩, ?_, ?_, ?_, ?_, ?_⟩
  · intro ops m T d h
    exact (Operation.run_all_keeps_registered typeid_name NDEBUG ops m).1 T d h
  · intro ops m C d h
    exact (Operation.run_all_keeps_registered typeid_name NDEBUG ops m).2 C d h
  · intro memory before later T d h
    have e : Operation.run_all typeid_name NDEBUG (before ++ later) (Machine.initial memory)
        = Operation.run_all typeid_name NDEBUG later
            (Operation.run_all typeid_name NDEBUG before (Machine.initial memory)) := by
      simp [Operation.run_all, List.foldl_append]
    rw [e]
    exact (Operation.run_all_keeps_registered typeid_name NDEBUG later _).1 T d h
  · intro memory before later C d h
    have e : Operation.run_all typeid_name NDEBUG (before ++ later) (Machine.initial memory)
        = Operation.run_all typeid_name NDEBUG later
            (Operation.run_all typeid_name NDEBUG before (Machine.initial memory)) := by
      simp [Operation.run_all, List.foldl_append]
    rw [e]
    exact (Operation.run_all_keeps_registered typeid_name NDEBUG later _).2 C d h
  · intro op m h
    exact Operation.run_keeps_registry typeid_name NDEBUG op h m

/-- A run from process start that registers `Vec3`, then tries to register it again with
another descriptor and with null around an unbox: the entry keeps the first descriptor. -/
theorem registry_entries_are_set_once_witness :
    (Operation.run_all sample.typeid_name false
        ([.static_set_julia_type (.user "Vec3") (some sample.Vec3_type)]
          ++ [.static_set_julia_type (.user "Vec3") (some sample.Other_type),
              .convert_to_cpp (.pointer (.user "Vec3")) (some (sample.wrapped 5)),
              .static_set_julia_type (.user "Vec3") none])
        (Machine.initial sample.memory)).static_m_type_pointer (.user "Vec3")
        = some sample.Vec3_type
    ∧ ((Operation.convert_to_cpp (.user "Vec3") (some (sample.wrapped 5))).run
          sample.typeid_name true sample.registered).static_m_type_pointer
        = sample.registered.static_m_type_pointer :=
  ⟨(registry_entries_are_set_once sample.typeid_name false).2.2.2.1 sample.memory
      [.static_set_julia_type (.user "Vec3") (some sample.Vec3_type)]
      [.static_set_julia_type (.user "Vec3") (some sample.Other_type),
        .convert_to_cpp (.pointer (.user "Vec3")) (some (sample.wrapped 5)),
        .static_set_julia_type (.user "Vec3") none]
      (.user "Vec3") sample.Vec3_type (by decide),
   ((registry_entries_are_set_once sample.typeid_name true).2.2.2.2.2
      (.convert_to_cpp (.user "Vec3") (some (sample.wrapped 5))) sample.registered rfl).1⟩

/-- C12: `convert_to_julia` on a handle `jl_value_t*` and on a handle `jl_datatype_t*`
returns the very handle it was given and leaves the state as it was; hence applying it
again any number of times to its own result still returns that handle. -/
theorem convert_to_julia_handle_passthrough (m : Machine) (h : Option jl_value_t)
    (t : Option jl_datatype_t) (n : Nat) :
    convert_to_julia.jl_value_pointer h m = (.ok h, m)
    ∧ convert_to_julia.jl_datatype_pointer t m = (.ok t, m)
    ∧ Nat.iterate (fun c => Cpp.andThen c convert_to_julia.jl_value_pointer) n
        (convert_to_julia.jl_value_pointer h) m = (.ok h, m)
    ∧ Nat.iterate (fun c => Cpp.andThen c convert_to_julia.jl_datatype_pointer) n
        (convert_to_julia.jl_datatype_pointer t) m = (.ok t, m) := by
  refine ⟨rfl, rfl, ?_, ?_⟩
  · induction n with
    | zero => rfl
    | succ k ih =>
      rw [Function.iterate_succ_apply']
      simp only [Cpp.andThen, ih]
      rfl
  · induction n with
    | zero => rfl
    | succ k ih =>
      rw [Function.iterate_succ_apply']
      simp only [Cpp.andThen, ih]
      rfl

/-- C13: in every state, whatever the registry holds, the descriptor lookup for `double`,
`int`, `unsigned int`, `uint64_t`, `void*`, `jl_datatype_t*` and `jl_value_t*` returns
the fixed runtime descriptor of that type and leaves the state as it was; the result does
not depend on the state, so no entry is read and no lookup throws. -/
theorem builtin_julia_type_ignores_registry (typeid_name : CppType → String) (m : Machine) :
    static_type_mapping.julia_type typeid_name .double m = (.ok jl_float64_type, m)
    ∧ static_type_mapping.julia_type typeid_name .int m = (.ok jl_int32_type, m)
    ∧ static_type_mapping.julia_type typeid_name .unsigned_int m = (.ok jl_uint32_type, m)
    ∧ static_type_mapping.julia_type typeid_name .uint64_t m = (.ok jl_uint64_type, m)
    ∧ static_type_mapping.julia_type typeid_name (.pointer .void) m
        = (.ok jl_voidpointer_type, m)
    ∧ static_type_mapping.julia_type typeid_name (.pointer .jl_datatype_t) m
        = (.ok jl_datatype_type, m)
    ∧ static_type_mapping.julia_type typeid_name (.pointer .jl_value_t) m
        = (.ok jl_any_type, m) :=
  ⟨rfl, rfl, rfl, rfl, rfl, rfl, rfl⟩

/-- The lookup for `SingletonType<T>` is the lookup for `T` followed by the application of
the type-of-a-type constructor. -/
theorem julia_type_SingletonType (typeid_name : CppType → String) (T : CppType) :
    static_type_mapping.julia_type typeid_name (.SingletonType T)
      = Cpp.andThen (static_type_mapping.julia_type typeid_name T)
          (fun dt => Cpp.ret (jl_apply_type_type dt)) := by
  rw [static_type_mapping.julia_type]
  rfl

/-- The lookup of the base template for `T` does not depend on the entry of another
type. -/
theorem primary_julia_type_with_other_entry (typeid_name : CppType → String) (K : CppType)
    (x : Option jl_datatype_t) (m : Machine) (T : CppType) (h : T ≠ K) :
    (static_type_mapping.primary.julia_type typeid_name T (m.with_static_entry K x)).1
      = (static_type_mapping.primary.julia_type typeid_name T m).1 := by
  simp only [static_type_mapping.primary.julia_type, Machine.with_static_entry, if_neg h]
  cases m.static_m_type_pointer T <;> rfl

/-- The result of a descriptor lookup does not depend on the entry of any singleton
type. -/
theorem julia_type_ignores_singleton_entry (typeid_name : CppType → String) (K : CppType)
    (x : Option jl_datatype_t) (m : Machine) (T : CppType) :
    (static_type_mapping.julia_type typeid_name T
        (m.with_static_entry (.SingletonType K) x)).1
      = (static_type_mapping.julia_type typeid_name T m).1 := by
  induction T with
  | SingletonType T ih =>
    rw [julia_type_SingletonType]
    unfold Cpp.andThen
    rcases h1 : static_type_mapping.julia_type typeid_name T
      (m.with_static_entry (.SingletonType K) x) with ⟨r1, s1⟩
    rcases h2 : static_type_mapping.julia_type typeid_name T m with ⟨r2, s2⟩
    rw [h1, h2] at ih
    simp only at ih
    subst ih
    cases r1 <;> rfl
  | pointer T _ =>
    cases T <;>
      first
        | rfl
        | exact primary_julia_type_with_other_entry typeid_name _ x m _ (by simp)
  | _ =>
    first
      | rfl
      | exact primary_julia_type_with_other_entry typeid_name _ x m _ (by simp)

/-- C14: if the descriptor lookup for `T` returns `d` (a built-in or a registered
descriptor), the lookup for `SingletonType<T>` returns the type-of-a-type constructor
applied to `d`, and the lookup for `SingletonType<SingletonType<T>>` returns it applied
twice; if the lookup for `T` throws, both throw the same error. The entry of the singleton
type itself is never consulted: replacing it by anything leaves the result unchanged. -/
theorem singleton_julia_type_derived (typeid_name : CppType → String) (m : Machine)
    (T : CppType) :
    (∀ d, (static_type_mapping.julia_type typeid_name T m).1 = .ok d →
      (static_type_mapping.julia_type typeid_name (.SingletonType T) m).1
          = .ok (jl_apply_type_type d)
      ∧ (static_type_mapping.julia_type typeid_name (.SingletonType (.SingletonType T)) m).1
          = .ok (jl_apply_type_type (jl_apply_type_type d)))
    ∧ (∀ e, (static_type_mapping.julia_type typeid_name T m).1 = .error e →
      (static_type_mapping.julia_type typeid_name (.SingletonType T) m).1 = .error e
      ∧ (static_type_mapping.julia_type typeid_name (.SingletonType (.SingletonType T)) m).1
          = .error e)
    ∧ (∀ x, (static_type_mapping.julia_type typeid_name (.SingletonType T)
          (m.with_static_entry (.SingletonType T) x)).1
        = (static_type_mapping.julia_type typeid_name (.SingletonType T) m).1) := by
  refine ⟨?_, ?_, ?_⟩
  · intro d h
    rw [julia_type_SingletonType typeid_name (.SingletonType T),
      julia_type_SingletonType typeid_name T]
    unfold Cpp.andThen
    rcases h2 : static_type_mapping.julia_type typeid_name T m with ⟨r2, s2⟩
    rw [h2] at h
    simp only at h
    subst h
    exact ⟨rfl, rfl⟩
  · intro e h
    rw [julia_type_SingletonType typeid_name (.SingletonType T),
      julia_type_SingletonType typeid_name T]
    unfold Cpp.andThen
    rcases h2 : static_type_mapping.julia_type typeid_name T m with ⟨r2, s2⟩
    rw [h2] at h
    simp only at h
    subst h
    exact ⟨rfl, rfl⟩
  · intro x
    exact julia_type_ignores_singleton_entry typeid_name T x m (.SingletonType T)

/-- The singleton of the registered class `Vec3` and the singleton of the unregistered
class `A` in the registered sample state. -/
theorem singleton_julia_type_derived_witness :
    ((static_type_mapping.julia_type sample.typeid_name (.SingletonType (.user "Vec3"))
        sample.registered).1 = .ok (jl_apply_type_type sample.Vec3_type)
      ∧ (static_type_mapping.julia_type sample.typeid_name
          (.SingletonType (.SingletonType (.user "Vec3"))) sample.registered).1
          = .ok (jl_apply_type_type (jl_apply_type_type sample.Vec3_type)))
    ∧ ((static_type_mapping.julia_type sample.typeid_name (.SingletonType (.user "A"))
        sample.registered).1 = .error (.runtime_error "Type A has no Julia wrapper")
      ∧ (static_type_mapping.julia_type sample.typeid_name
          (.SingletonType (.SingletonType (.user "A"))) sample.registered).1
          = .error (.runtime_error "Type A has no Julia wrapper")) :=
  ⟨(singleton_julia_type_derived sample.typeid_name sample.registered (.user "Vec3")).1
      sample.Vec3_type rfl,
   (singleton_julia_type_derived sample.typeid_name sample.registered (.user "A")).2.1
      (.runtime_error "Type A has no Julia wrapper") rfl⟩

/-- C15: for a class type `S`, the stripped type of `S`, `S&`, `const S`, `const S&`,
`S*`, `const S*`, `S* const`, `const S* const` and `const S* const&` is `S`. With two
levels of pointer the claim fails: the stripped type of `S**` is `S*`, not `S`, because
one `std::remove_pointer` removes one level only; and `convert_to_cpp<Vec3**>` on a
wrapped `Vec3`, with `Vec3` registered, consults the entry of `Vec3*` and throws that
`Vec3*` has no wrapper in a build with assertions, while with `NDEBUG` defined it consults
no entry and returns the stored `Vec3*` as a `Vec3**`. -/
theorem stripped_cpp_t_removes_one_pointer_level (name : String) :
    (detail.JuliaUnpacker.stripped_cpp_t (.user name) = .user name
      ∧ detail.JuliaUnpacker.stripped_cpp_t (.lvalue_reference (.user name)) = .user name
      ∧ detail.JuliaUnpacker.stripped_cpp_t (.const (.user name)) = .user name
      ∧ detail.JuliaUnpacker.stripped_cpp_t (.lvalue_reference (.const (.user name)))
          = .user name
      ∧ detail.JuliaUnpacker.stripped_cpp_t (.pointer (.user name)) = .user name
      ∧ detail.JuliaUnpacker.stripped_cpp_t (.pointer (.const (.user name))) = .user name
      ∧ detail.JuliaUnpacker.stripped_cpp_t (.const (.pointer (.user name))) = .user name
      ∧ detail.JuliaUnpacker.stripped_cpp_t (.const (.pointer (.const (.user name))))
          = .user name
      ∧ detail.JuliaUnpacker.stripped_cpp_t
          (.lvalue_reference (.const (.pointer (.const (.user name))))) = .user name)
    ∧ detail.JuliaUnpacker.stripped_cpp_t (.pointer (.pointer (.user name)))
        = .pointer (.user name)
    ∧ detail.JuliaUnpacker.stripped_cpp_t (.pointer (.pointer (.user name))) ≠ .user name
    ∧ convert_to_cpp sample.typeid_name false (.pointer (.pointer (.user "Vec3")))
        (some (sample.wrapped 5)) sample.registered
        = (.error (.runtime_error "Type ? has no Julia wrapper"), sample.registered)
    ∧ (convert_to_cpp sample.typeid_name true (.pointer (.pointer (.user "Vec3")))
        (some (sample.wrapped 5)) sample.registered).1 = .ok (.pointer 5) := by
  refine ⟨⟨rfl, rfl, rfl, rfl, rfl, rfl, rfl, rfl, rfl⟩, rfl, ?_, rfl, rfl⟩
  simp [detail.JuliaUnpacker.stripped_cpp_t, remove_const_ref, std.remove_const,
    std.remove_reference, std.remove_pointer]

/-- The not-registered text of the base template carries the name of the type. -/
theorem carries_name_no_wrapper (x : String) :
    carries_name ("Type " ++ x ++ " has no Julia wrapper") x = true := by
  simp only [carries_name, decide_eq_true_eq, String.data_append]
  exact ⟨"Type ".data, " has no Julia wrapper".data, rfl⟩

/-- The already-registered text of the base template carries the name of the type. -/
theorem carries_name_already_registered (x : String) :
    carries_name ("Type " ++ x ++ " was already registered") x = true := by
  simp only [carries_name, decide_eq_true_eq, String.data_append]
  exact ⟨"Type ".data, " was already registered".data, rfl⟩

/-- The already-registered text of `parametric_type_mapping` carries the name it ends
with. -/
theorem carries_name_registered_as (x : String) :
    carries_name ("Template type was already registered as " ++ x) x = true := by
  simp only [carries_name, decide_eq_true_eq, String.data_append]
  exact ⟨"Template type was already registered as ".data, [], by simp⟩

/-- C16, as stated, fails: at process start the failed lookup for the class template `Box`
throws a text in which the name `Box` does not occur. -/
theorem parametric_julia_type_error_names_no_template :
    (parametric_type_mapping.julia_type "Box" (Machine.initial sample.memory)).1
      = .error (.runtime_error "No Julia type for requested template type")
    ∧ carries_name
        (Failure.runtime_error "No Julia type for requested template type").text "Box"
      = false := by
  refine ⟨rfl, ?_⟩
  decide

/-- C16, amended: on an entry of the base template that holds no descriptor, the error
thrown by `julia_type()` carries `typeid(SourceT).name()` in its text; on an entry of
`parametric_type_mapping` that holds no descriptor, the error text is one fixed sentence,
the same for every class template. -/
theorem julia_type_error_text (typeid_name : CppType → String) (m : Machine) :
    (∀ SourceT : CppType, m.static_m_type_pointer SourceT = none →
      ∃ e, (static_type_mapping.primary.julia_type typeid_name SourceT m).1 = .error e
        ∧ carries_name e.text (typeid_name SourceT) = true)
    ∧ (∀ SourceT : String, m.parametric_m_type_pointer SourceT = none →
      (parametric_type_mapping.julia_type SourceT m).1
        = .error (.runtime_error "No Julia type for requested template type")) := by
  refine ⟨?_, ?_⟩
  · intro SourceT h
    refine ⟨.runtime_error ("Type " ++ typeid_name SourceT ++ " has no Julia wrapper"), ?_,
      carries_name_no_wrapper _⟩
    simp [static_type_mapping.primary.julia_type, h, throw_runtime_error, Cpp.fail]
  · intro SourceT h
    simp [parametric_type_mapping.julia_type, h, throw_runtime_error, Cpp.fail]

/-- The unregistered class `A` and the unregistered template `Stack` in the registered
sample state. -/
theorem julia_type_error_text_witness :
    (∃ e, (static_type_mapping.primary.julia_type sample.typeid_name (.user "A")
        sample.registered).1 = .error e
      ∧ carries_name e.text (sample.typeid_name (.user "A")) = true)
    ∧ (parametric_type_mapping.julia_type "Stack" sample.registered).1
        = .error (.runtime_error "No Julia type for requested template type") :=
  ⟨(julia_type_error_text sample.typeid_name sample.registered).1 (.user "A") (by decide),
   (julia_type_error_text sample.typeid_name sample.registered).2 "Stack" (by decide)⟩

/-- C17, as stated, fails: with the class `A` registered to the descriptor named `Other`,
a second `set_julia_type` for `A` throws a text in which the name `Other` does not
occur. -/
theorem static_set_julia_type_error_names_no_descriptor :
    (static_type_mapping.primary.set_julia_type sample.typeid_name (.user "A")
        (some sample.Vec3_type)
        (static_type_mapping.primary.set_julia_type sample.typeid_name (.user "A")
          (some sample.Other_type) (Machine.initial sample.memory)).2).1
      = .error (.runtime_error "Type A was already registered")
    ∧ carries_name (Failure.runtime_error "Type A was already registered").text
        (jl_typename_str sample.Other_type) = false := by
  refine ⟨rfl, ?_⟩
  decide

/-- C17, amended: on an entry of `parametric_type_mapping` that holds the descriptor `d`,
the error thrown by a second `set_julia_type` carries the name of `d` in its text; on an
entry of the base template that holds a descriptor, the error carries
`typeid(SourceT).name()`, the name of the native type. -/
theorem set_julia_type_error_text (typeid_name : CppType → String) (m : Machine) :
    (∀ (SourceT : String) (d : jl_datatype_t) (d2 : Option jl_datatype_t),
      m.parametric_m_type_pointer SourceT = some d →
        ∃ e, (parametric_type_mapping.set_julia_type SourceT d2 m).1 = .error e
          ∧ carries_name e.text (jl_typename_str d) = true)
    ∧ (∀ (SourceT : CppType) (d : jl_datatype_t) (d2 : Option jl_datatype_t),
      m.static_m_type_pointer SourceT = some d →
        ∃ e, (static_type_mapping.primary.set_julia_type typeid_name SourceT d2 m).1 = .error e
          ∧ carries_name e.text (typeid_name SourceT) = true) := by
  refine ⟨?_, ?_⟩
  · intro SourceT d d2 h
    refine ⟨.runtime_error ("Template type was already registered as " ++ jl_typename_str d),
      ?_, carries_name_registered_as _⟩
    simp [parametric_type_mapping.set_julia_type, h, throw_runtime_error, Cpp.fail]
  · intro SourceT d d2 h
    refine ⟨.runtime_error ("Type " ++ typeid_name SourceT ++ " was already registered"),
      ?_, carries_name_already_registered _⟩
    simp [static_type_mapping.primary.set_julia_type, h, throw_runtime_error, Cpp.fail]

/-- The registered template `Box` and the registered class `Vec3` of the sample state. -/
theorem set_julia_type_error_text_witness :
    (∃ e, (parametric_type_mapping.set_julia_type "Box" (some sample.Other_type)
        sample.registered).1 = .error e
      ∧ carries_name e.text (jl_typename_str sample.Vec3_type) = true)
    ∧ (∃ e, (static_type_mapping.primary.set_julia_type sample.typeid_name (.user "Vec3")
        (some sample.Other_type) sample.registered).1 = .error e
      ∧ carries_name e.text (sample.typeid_name (.user "Vec3")) = true) :=
  ⟨(set_julia_type_error_text sample.typeid_name sample.registered).1 "Box" sample.Vec3_type
      (some sample.Other_type) (by decide),
   (set_julia_type_error_text sample.typeid_name sample.registered).2 (.user "Vec3")
      sample.Vec3_type (some sample.Other_type) (by decide)⟩

/-- Registering null on an entry that holds no descriptor returns and leaves the whole
state as it was. -/
theorem set_julia_type_null_on_unregistered (typeid_name : CppType → String) (m : Machine) :
    (∀ T, m.static_m_type_pointer T = none →
      (static_type_mapping.primary.set_julia_type typeid_name T none m).1 = .ok ()
      ∧ (static_type_mapping.primary.set_julia_type typeid_name T none
          m).2.static_m_type_pointer T = none)
    ∧ (∀ C, m.parametric_m_type_pointer C = none →
      (parametric_type_mapping.set_julia_type C none m).1 = .ok ()
      ∧ (parametric_type_mapping.set_julia_type C none m).2.parametric_m_type_pointer C
          = none) := by
  refine ⟨?_, ?_⟩
  · intro T h
    simp [static_type_mapping.primary.set_julia_type, h]
  · intro C h
    simp [parametric_type_mapping.set_julia_type, h]

/-- Any number of null registrations keeps an unregistered entry unregistered. -/
theorem iterate_set_julia_type_null (typeid_name : CppType → String) (n : Nat) :
    ∀ m : Machine,
    (∀ T, m.static_m_type_pointer T = none →
      (Nat.iterate
        (fun s => (static_type_mapping.primary.set_julia_type typeid_name T none s).2) n
        m).static_m_type_pointer T = none)
    ∧ (∀ C, m.parametric_m_type_pointer C = none →
      (Nat.iterate (fun s => (parametric_type_mapping.set_julia_type C none s).2) n
        m).parametric_m_type_pointer C = none) := by
  induction n with
  | zero => intro m; exact ⟨fun _ h => h, fun _ h => h⟩
  | succ k ih =>
    intro m
    refine ⟨fun T h => ?_, fun C h => ?_⟩
    · rw [Function.iterate_succ_apply']
      exact ((set_julia_type_null_on_unregistered typeid_name _).1 T ((ih m).1 T h)).2
    · rw [Function.iterate_succ_apply']
      exact ((set_julia_type_null_on_unregistered typeid_name _).2 C ((ih m).2 C h)).2

/-- C18: on an entry that holds no descriptor, of the base template or of
`parametric_type_mapping`, `set_julia_type(nullptr)` returns without throwing, however
many times it has been called before; after any number `n` of such calls the entry still
holds no descriptor, `has_julia_type()` returns false, `julia_type()` throws the
not-registered error, and a `set_julia_type(d)` with a non-null `d` returns and makes
`julia_type()` return `d`. -/
theorem set_julia_type_null_is_not_a_registration (typeid_name : CppType → String)
    (m : Machine) (n : Nat) (d : jl_datatype_t) :
    (∀ T, m.static_m_type_pointer T = none →
      (static_type_mapping.primary.set_julia_type typeid_name T none
        (Nat.iterate
          (fun s => (static_type_mapping.primary.set_julia_type typeid_name T none s).2) n
          m)).1 = .ok ()
      ∧ (static_type_mapping.primary.has_julia_type T
        (Nat.iterate
          (fun s => (static_type_mapping.primary.set_julia_type typeid_name T none s).2) n
          m)).1 = .ok false
      ∧ (static_type_mapping.primary.julia_type typeid_name T
        (Nat.iterate
          (fun s => (static_type_mapping.primary.set_julia_type typeid_name T none s).2) n
          m)).1 = .error (.runtime_error ("Type " ++ typeid_name T ++ " has no Julia wrapper"))
      ∧ (static_type_mapping.primary.set_julia_type typeid_name T (some d)
        (Nat.iterate
          (fun s => (static_type_mapping.primary.set_julia_type typeid_name T none s).2) n
          m)).1 = .ok ()
      ∧ (static_type_mapping.primary.julia_type typeid_name T
        (static_type_mapping.primary.set_julia_type typeid_name T (some d)
          (Nat.iterate
            (fun s => (static_type_mapping.primary.set_julia_type typeid_name T none s).2) n
            m)).2).1 = .ok d)
    ∧ (∀ C, m.parametric_m_type_pointer C = none →
      (parametric_type_mapping.set_julia_type C none
        (Nat.iterate (fun s => (parametric_type_mapping.set_julia_type C none s).2) n m)).1
        = .ok ()
      ∧ (parametric_type_mapping.has_julia_type C
        (Nat.iterate (fun s => (parametric_type_mapping.set_julia_type C none s).2) n m)).1
        = .ok false
      ∧ (parametric_type_mapping.julia_type C
        (Nat.iterate (fun s => (parametric_type_mapping.set_julia_type C none s).2) n m)).1
        = .error (.runtime_error "No Julia type for requested template type")
      ∧ (parametric_type_mapping.set_julia_type C (some d)
        (Nat.iterate (fun s => (parametric_type_mapping.set_julia_type C none s).2) n m)).1
        = .ok ()
      ∧ (parametric_type_mapping.julia_type C
        (parametric_type_mapping.set_julia_type C (some d)
          (Nat.iterate (fun s => (parametric_type_mapping.set_julia_type C none s).2) n
            m)).2).1 = .ok d) := by
  refine ⟨?_, ?_⟩
  · intro T h
    have hn := (iterate_set_julia_type_null typeid_name n m).1 T h
    generalize Nat.iterate
      (fun s => (static_type_mapping.primary.set_julia_type typeid_name T none s).2) n m = s
      at hn ⊢
    simp [static_type_mapping.primary.set_julia_type, static_type_mapping.primary.julia_type,
      static_type_mapping.primary.has_julia_type, throw_runtime_error, Cpp.fail, Cpp.ret, hn]
  · intro C h
    have hn := (iterate_set_julia_type_null typeid_name n m).2 C h
    generalize Nat.iterate (fun s => (parametric_type_mapping.set_julia_type C none s).2) n m = s
      at hn ⊢
    simp [parametric_type_mapping.set_julia_type, parametric_type_mapping.julia_type,
      parametric_type_mapping.has_julia_type, throw_runtime_error, Cpp.fail, Cpp.ret, hn]

/-- Three null registrations of the class `A` and of the template `Stack` in the
registered sample state, followed by a registration with `Other_type`. -/
theorem set_julia_type_null_is_not_a_registration_witness :
    (static_type_mapping.primary.julia_type sample.typeid_name (.user "A")
        (static_type_mapping.primary.set_julia_type sample.typeid_name (.user "A")
          (some sample.Other_type)
          (Nat.iterate
            (fun s => (static_type_mapping.primary.set_julia_type sample.typeid_name
              (.user "A") none s).2) 3 sample.registered)).2).1 = .ok sample.Other_type
    ∧ (parametric_type_mapping.julia_type "Stack"
        (parametric_type_mapping.set_julia_type "Stack" (some sample.Other_type)
          (Nat.iterate (fun s => (parametric_type_mapping.set_julia_type "Stack" none s).2) 3
            sample.registered)).2).1 = .ok sample.Other_type :=
  ⟨((set_julia_type_null_is_not_a_registration sample.typeid_name sample.registered 3
      sample.Other_type).1 (.user "A") (by decide)).2.2.2.2,
   ((set_julia_type_null_is_not_a_registration sample.typeid_name sample.registered 3
      sample.Other_type).2 "Stack" (by decide)).2.2.2.2⟩

/-- C19, as stated, fails: in a build with `NDEBUG` defined the descriptor lookup, which
is part of the operand of an `assert`, is not evaluated. With the class `A` not
registered, a wrapped value requested as `A*` is not rejected: the call reads field 0 (one
`jl_fieldref` call is logged) and returns the pointer stored there. -/
theorem convert_to_cpp_unregistered_returns_under_ndebug :
    sample.registered.static_m_type_pointer (.user "A") = none
    ∧ (convert_to_cpp sample.typeid_name true (.pointer (.user "A")) (some (sample.wrapped 5))
        sample.registered).1 = .ok (.pointer 5)
    ∧ (convert_to_cpp sample.typeid_name true (.pointer (.user "A")) (some (sample.wrapped 5))
        sample.registered).2.fieldref_log.length = 1 :=
  ⟨by decide, rfl, rfl⟩

/-- C19, amended: in a build with assertions enabled (`NDEBUG` not defined), let `T` be a
requested type whose stripped type is a class type `S` with no registered descriptor (so
`T` may be `S`, `S&` or `S*`), and `v` a non-null handle. Then `convert_to_cpp<T>(v)`
throws the not-registered error of the descriptor lookup made inside the type validation,
and the state it stops in is the state it started from, so no `jl_fieldref` call has been
made. In particular pointer mode fails this way. -/
theorem convert_to_cpp_unregistered_throws_before_fieldref (typeid_name : CppType → String)
    (m : Machine) (T : CppType) (name : String) (v : jl_value_t)
    (hS : detail.JuliaUnpacker.stripped_cpp_t T = .user name)
    (hD : m.static_m_type_pointer (.user name) = none) :
    convert_to_cpp typeid_name false T (some v) m
        = (.error (.runtime_error
            ("Type " ++ typeid_name (.user name) ++ " has no Julia wrapper")), m)
    ∧ (convert_to_cpp typeid_name false T (some v) m).2.fieldref_log = m.fieldref_log
    ∧ convert_to_cpp typeid_name false (.user name) (some v) m
        = (.error (.runtime_error
            ("Type " ++ typeid_name (.user name) ++ " has no Julia wrapper")), m)
    ∧ convert_to_cpp typeid_name false (.lvalue_reference (.user name)) (some v) m
        = (.error (.runtime_error
            ("Type " ++ typeid_name (.user name) ++ " has no Julia wrapper")), m)
    ∧ convert_to_cpp typeid_name false (.pointer (.user name)) (some v) m
        = (.error (.runtime_error
            ("Type " ++ typeid_name (.user name) ++ " has no Julia wrapper")), m) := by
  have key : ∀ T2, detail.JuliaUnpacker.stripped_cpp_t T2 = .user name →
      convert_to_cpp typeid_name false T2 (some v) m
        = (.error (.runtime_error
            ("Type " ++ typeid_name (.user name) ++ " has no Julia wrapper")), m) := by
    intro T2 h2
    have e1 := extract_cpp_pointer_unregistered typeid_name false m T2 name v h2 hD
    rw [convert_to_cpp_user_stripped typeid_name false T2 name h2]
    simp [detail.JuliaUnpacker.call, Cpp.bind_eq, Cpp.andThen, e1]
  refine ⟨key T hS, ?_, key _ rfl, key _ rfl, key _ rfl⟩
  rw [key T hS]

/-- A wrapped value requested as `A*` in the registered sample state, where the class `A`
is not registered, in a build with assertions. -/
theorem convert_to_cpp_unregistered_throws_before_fieldref_witness :
    convert_to_cpp sample.typeid_name false (.pointer (.user "A")) (some (sample.wrapped 5))
        sample.registered
      = (.error (.runtime_error "Type A has no Julia wrapper"), sample.registered) :=
  (convert_to_cpp_unregistered_throws_before_fieldref sample.typeid_name sample.registered
    (.pointer (.user "A")) "A" (sample.wrapped 5) rfl (by decide)).1

end cpp_wrapper
